import Mathlib

/-!
Shallow embedding of the loan-decision-api repository (config.py,
evaluation_module.py, logic.py, main.py, narrative.py) and proofs about it.

Modelling conventions:
- Python floats are modelled as exact rationals (`ℚ`); the spec itself
  describes DSCR, amounts, confidences and risk scores as rationals.
- Python dicts with a fixed shape become structures; decision dicts become
  the `Decision` structure (decision tag, confidence, explanation), and the
  richer outcome of `logic.evaluate_application` becomes `AppOutcome`.
- `dict.get(k, default)` becomes an association-list `lookup` + `getD`;
  a bare subscript `d[k]` that can miss becomes an `Except` raising
  `PyErr.keyError`, mirroring Python's KeyError.
- Functions that can raise return `Except PyErr _`:
  `PyErr.evaluationError` for the raised `EvaluationError`,
  `PyErr.typeError` for subscripting `None`,
  `PyErr.keyError` for a missing dict key,
  `PyErr.nameError` for reading a never-assigned local (UnboundLocalError).
- A Python function that can fall off its end without returning yields
  `Option Decision` with `none` standing for Python's `None`.
- The external GPT collaborator (gpt_client.call_gpt) is modelled as an
  oracle indexed by attempt number, returning `Except Unit String`.
-/

/-- A decision dict as returned by the rule functions:
`{"decision": ..., "confidence": ..., "explanation": ...}`. -/
structure Decision where
  decision : String
  confidence : ℚ
  explanation : String

/-- Python exceptions that the embedded code can raise. -/
inductive PyErr where
  | evaluationError
  | typeError
  | keyError
  | nameError
deriving DecidableEq

/-- A min/max loan band from SME_PROFILES (`{"min": ..., "max": ...}`). -/
structure LoanBand where
  min : ℚ
  max : ℚ

/-- One SME profile record from the SME_PROFILES dictionary. -/
structure SMEProfile where
  label : String
  confidence : ℚ
  loan_unsecured : LoanBand
  loan_secured : LoanBand
  financials_required : List String

/-- Python's `str.lower()` for the ASCII strings used by this code. -/
def pyLower (s : String) : String := ⟨s.data.map Char.toLower⟩

/-- Python's `in` on strings: substring containment. -/
def pyContains (pat s : String) : Prop := pat.toList <:+: s.toList

instance (pat s : String) : Decidable (pyContains pat s) :=
  inferInstanceAs (Decidable (pat.toList <:+: s.toList))

namespace Config

/-- config.py DECISIONS: key ↦ the "value" field of each entry (the
"definition" prose fields are not used by any code path). Note the keys
are PROGRESS/FAIL/CONDITIONAL_PASS/FLAG_AI/FLAG_UW while the FLAG values
contain a slash. -/
def DECISIONS : List (String × String) :=
  [("PROGRESS", "PROGRESS"),
   ("FAIL", "FAIL"),
   ("CONDITIONAL_PASS", "CONDITIONAL_PASS"),
   ("FLAG_AI", "FLAG/AI"),
   ("FLAG_UW", "FLAG/UW")]

/-- `DECISIONS[k]["value"]`: a bare dict subscript, KeyError when absent. -/
def getDecisionValue (k : String) : Except PyErr String :=
  match DECISIONS.lookup k with
  | some v => Except.ok v
  | none => Except.error PyErr.keyError

/-- config.py SME_PROFILES["EB"]. -/
def SME_PROFILES_EB : SMEProfile :=
  { label := "Established Business"
    confidence := 0.95
    loan_unsecured := { min := 25000, max := 150000 }
    loan_secured := { min := 25000, max := 250000 }
    financials_required := ["3 years certified accounts", "2 years accounts + 12-month forecast"] }

/-- config.py SME_PROFILES["ESB"]. -/
def SME_PROFILES_ESB : SMEProfile :=
  { label := "Early-Stage Business"
    confidence := 0.85
    loan_unsecured := { min := 25000, max := 75000 }
    loan_secured := { min := 25000, max := 150000 }
    financials_required := ["1 year certified accounts", "12+ months management accounts"] }

/-- config.py SME_PROFILES["NTB"]. -/
def SME_PROFILES_NTB : SMEProfile :=
  { label := "Newly Trading Business"
    confidence := 0.75
    loan_unsecured := { min := 25000, max := 60000 }
    loan_secured := { min := 25000, max := 100000 }
    financials_required := ["3-11 months management accounts"] }

/-- config.py SME_PROFILES["SU"]. -/
def SME_PROFILES_SU : SMEProfile :=
  { label := "Startup"
    confidence := 0.60
    loan_unsecured := { min := 26000, max := 40000 }
    loan_secured := { min := 26000, max := 80000 }
    financials_required := ["No management accounts, pre-revenue"] }

/-- config.py ACCEPTABLE_INDUSTRY_SECTORS (note the Oxford comma in
"Agriculture, Forestry, and Fishing" here). -/
def ACCEPTABLE_INDUSTRY_SECTORS : List String :=
  ["Construction",
   "Professional, Scientific, and Technical Activities",
   "Wholesale and Retail Trade",
   "Other Service Activities",
   "Human Health and Social Work Activities",
   "Information and Communication",
   "Transportation and Storage",
   "Education",
   "Arts, Entertainment, and Recreation",
   "Manufacturing",
   "Accommodation and Food Service Activities",
   "Agriculture, Forestry, and Fishing",
   "Real Estate Activities",
   "Administrative and Support Service Activities",
   "Financial and Insurance Activities"]

/-- config.py FAILED_INDUSTRY_SECTORS. -/
def FAILED_INDUSTRY_SECTORS : List String :=
  ["Illicit or Illegal industries",
   "Places of Worship",
   "Places of Gambling",
   "Environmentally harmful industries",
   "Predatory financial services (e.g. payday lenders)"]

/-- config.py SME_RISK_SCORES. -/
def SME_RISK_SCORES : List (String × ℚ) :=
  [("EB", 1.0), ("ESB", 1.5), ("NTB", 2.0), ("SU", 2.5)]

/-- config.py DSCR_RISK_SCORES. -/
def DSCR_RISK_SCORES : List (String × ℚ) :=
  [("high", 1.0), ("medium", 1.5), ("low", 2.0)]

/-- config.py CREDIT_RISK_SCORES. -/
def CREDIT_RISK_SCORES : List (String × ℚ) :=
  [("T1", 1.0), ("T2", 1.5), ("T3", 2.0)]

/-- config.py INDUSTRY_RISK_SCORES (all acceptable sectors score 1.0; note
this dict spells "Agriculture, Forestry and Fishing" without the Oxford
comma, unlike ACCEPTABLE_INDUSTRY_SECTORS). -/
def INDUSTRY_RISK_SCORES : List (String × ℚ) :=
  [("Construction", 1.0),
   ("Professional, Scientific, and Technical Activities", 1.0),
   ("Wholesale and Retail Trade", 1.0),
   ("Other Service Activities", 1.0),
   ("Human Health and Social Work Activities", 1.0),
   ("Information and Communication", 1.0),
   ("Transportation and Storage", 1.0),
   ("Education", 1.0),
   ("Arts, Entertainment, and Recreation", 1.0),
   ("Manufacturing", 1.0),
   ("Accommodation and Food Service Activities", 1.0),
   ("Agriculture, Forestry and Fishing", 1.0),
   ("Real Estate Activities", 1.0),
   ("Administrative and Support Service Activities", 1.0),
   ("Financial and Insurance Activities", 1.0)]

def WEIGHT_SME : ℚ := 0.32
def WEIGHT_DSCR : ℚ := 0.32
def WEIGHT_CREDIT : ℚ := 0.32
def WEIGHT_INDUSTRY : ℚ := 0.04

/-- config.py calculate_overall_risk: weighted sum of the per-factor risk
scores, each looked up with default 2.0. -/
def calculate_overall_risk (sme_profile dscr_level credit_profile industry_sector : String) : ℚ :=
  let sme_score := (SME_RISK_SCORES.lookup sme_profile).getD 2.0
  let dscr_score := (DSCR_RISK_SCORES.lookup dscr_level).getD 2.0
  let credit_score := (CREDIT_RISK_SCORES.lookup credit_profile).getD 2.0
  let industry_score := (INDUSTRY_RISK_SCORES.lookup industry_sector).getD 2.0
  WEIGHT_SME * sme_score + WEIGHT_DSCR * dscr_score +
    WEIGHT_CREDIT * credit_score + WEIGHT_INDUSTRY * industry_score

def MIN_DSCR : ℚ := 1.25
def MIN_LOAN_AMOUNT : ℚ := 25001

def PG_BASE_PERCENTAGE : ℚ := 0.20
def PG_MAX_PERCENTAGE : ℚ := 1.00

/-- config.py determine_pg_percentage: normalizes overall_risk against the
[1.0, 2.0] range and linearly interpolates between base and max PG.
The source contains no clamping step. -/
def determine_pg_percentage (overall_risk : ℚ) : ℚ :=
  let min_risk : ℚ := 1.0
  let max_risk : ℚ := 2.0
  let base_pg : ℚ := 0.20
  let max_pg : ℚ := 1.00
  let normalized_risk := (overall_risk - min_risk) / (max_risk - min_risk)
  base_pg + normalized_risk * (max_pg - base_pg)

/-- config.py global_sme_checks (the five-argument variant): ordered
segment-independent hard stops. The last branch subscripts
`DECISIONS["FLAG/UW"]`, written in the source with the slash value where
the key "FLAG_UW" is needed, so it raises KeyError. An empty dict return
is modelled as `none`. -/
def global_sme_checks (dscr loan_amount : ℚ) (risk_profile sme_profile industry_sector : String) :
    Except PyErr (Option Decision) :=
  if dscr < MIN_DSCR then do
    let v ← getDecisionValue "FAIL"
    -- f-string renders MIN_DSCR * 100 with no decimals: "125"
    return some ⟨v, 0.99, "DSCR < 125%. Loan declined."⟩
  else if loan_amount < MIN_LOAN_AMOUNT then do
    let v ← getDecisionValue "FAIL"
    return some ⟨v, 0.99, "Loan amount below £" ++ toString MIN_LOAN_AMOUNT ++ ". Does not meet minimum threshold."⟩
  else if risk_profile = "T3" then do
    let v ← getDecisionValue "FAIL"
    return some ⟨v, 0.99, "T3 risk profiles do not meet the minimum credit profile threshold."⟩
  else if sme_profile = "SU" then do
    let v ← getDecisionValue "FAIL"
    return some ⟨v, 0.99, "Startups are not considered for the Happy Path."⟩
  else if industry_sector ∈ FAILED_INDUSTRY_SECTORS then do
    let v ← getDecisionValue "FAIL"
    return some ⟨v, 0.99, "Industry sector '" ++ industry_sector ++ "' is not accepted."⟩
  else if industry_sector ∉ ACCEPTABLE_INDUSTRY_SECTORS then do
    let v ← getDecisionValue "FLAG/UW"
    return some ⟨v, 0.99, "Industry sector '" ++ industry_sector ++ "' is not recognized."⟩
  else
    return none

/-- config.py REQUIRED_DOCUMENTS["common"] as an ordered association list. -/
def REQUIRED_DOCUMENTS_common : List (String × String) :=
  [("Completed Application Form", "Must capture the loan request, purpose, trading history, and full details of the borrower and directors—including both personal and business assets/liabilities and a declaration of credit history."),
   ("Proof of Identity", "For all business owners, directors, and persons with significant control. Acceptable forms include: Passport, Driving license, National identity card, or other government-issued photo ID."),
   ("Proof of Address", "Certified proof of address, such as a recent utility bill (not older than 3 months), bank statement, or local authority tax bill."),
   ("Bank Statements", "A minimum of 6 months of business bank statements and at least 3 months of personal bank statements for the business owner or directors."),
   ("Declaration of Income and Expenditure", "A formal declaration outlining the borrower’s income, expenditures, and overall financial position."),
   ("Credit History Documentation", "Evidence of credit history, such as a credit report or related documentation from a credit reference agency."),
   ("Valuation and Professional Reports", "For secured loans, an independent professional valuation report of the collateral is required."),
   ("Agreement in Principle", "An agreement in principle may be required as part of the overall documentation package."),
   ("Legal Representation/Independent Legal Advice", "Documentation confirming independent legal advice or representation if required.")]

/-- config.py REQUIRED_DOCUMENTS, keyed by "common"/"EB"/"ESB"/"NTB"/"SU". -/
def REQUIRED_DOCUMENTS (key : String) : Option (List (String × String)) :=
  if key = "common" then some REQUIRED_DOCUMENTS_common
  else if key = "EB" then
    some [("Financial Statements", "Either 3 years of historical accounts OR 2 years of historical accounts and 1 year of projections.")]
  else if key = "ESB" then
    some [("Financial Statements", "1 year of historical accounts and 2 years of projections.")]
  else if key = "NTB" then
    some [("Financial Statements", "Up to 12 months of historical accounts and, for the current year, the remaining period projections plus 2 additional years of projections.")]
  else if key = "SU" then
    some [("Financial Statements", "3 years of projections.")]
  else none

end Config

namespace EvaluationModule

/-- evaluation_module.py DECISIONS (same shape as config.py's but with a
PASS entry instead of PROGRESS); key ↦ "value" field. -/
def DECISIONS : List (String × String) :=
  [("PASS", "PASS"),
   ("FAIL", "FAIL"),
   ("CONDITIONAL_PASS", "CONDITIONAL_PASS"),
   ("FLAG_AI", "FLAG/AI"),
   ("FLAG_UW", "FLAG/UW")]

/-- evaluation_module.py CONFIG["loan_adjustment_factor"]. -/
def loan_adjustment_factor : ℚ := 0.10

/-- evaluation_module.py RISK_CONFIDENCE_ADJUSTMENTS. -/
def RISK_CONFIDENCE_ADJUSTMENTS : List (String × ℚ) :=
  [("T1", 0.10), ("T2", 0.00), ("T3", -0.15)]

/-- evaluation_module.py DSCR_CONFIDENCE_ADJUSTMENTS. -/
def DSCR_CONFIDENCE_ADJUSTMENTS : List (String × ℚ) :=
  [("low", -0.15), ("medium", 0.00), ("high", 0.10)]

/-- evaluation_module.py adjust_confidence: loan-size reduction floored at
0.50, plus per-tier and per-DSCR-level deltas, final clamp to [0.50, 1.00]. -/
def adjust_confidence (base_confidence requested_loan min_loan max_loan : ℚ)
    (risk_profile dscr_level : String) : ℚ :=
  let factor := loan_adjustment_factor
  let denominator := if max_loan ≠ min_loan then max_loan - min_loan else 1
  let reduction := ((requested_loan - min_loan) / denominator) * factor
  let loan_conf := max (base_confidence - reduction) 0.50
  let risk_conf := loan_conf + (RISK_CONFIDENCE_ADJUSTMENTS.lookup risk_profile).getD 0
  let final_conf := risk_conf + (DSCR_CONFIDENCE_ADJUSTMENTS.lookup dscr_level).getD 0
  max (min final_conf 1.00) 0.50

/-- evaluation_module.py global_sme_checks (two-argument variant);
an empty dict return is modelled as `none`. -/
def global_sme_checks (dscr loan_amount : ℚ) : Option Decision :=
  if dscr < 1.25 then
    some ⟨"FAIL", 0.99, "DSCR <125%. Loan declined."⟩
  else if loan_amount < 25001 then
    some ⟨"FAIL", 0.99, "Loan amount below £25,001. Does not meet minimum threshold."⟩
  else
    none

/-- The comprehensive-fallback explanation shared verbatim by the four
segment evaluators in evaluation_module.py. -/
def fallback_explanation : String :=
  "Although the loan amount complies with the defined borrowing limits, " ++
  "the applicant’s DSCR and risk indicators do not justify an automatic PASS. " ++
  "However, since the only issues relate to missing personal guarantees, debentures, ID verifications, or AML/KYC checks, " ++
  "the application is granted a CONDITIONAL_PASS subject to these additional conditions."

/-- Body of evaluation_module.py evaluate_eb_risk after its profile guard:
min/max hard stops, then the prioritized EB rule table (sequential `if`
returns flattened in source order), then the comprehensive fallback. -/
def evaluate_eb_risk_body (risk_profile : String) (dscr loan_amount : ℚ) (loan_type : String) :
    Decision :=
  let min_limit := if pyLower loan_type = "secured" then Config.SME_PROFILES_EB.loan_secured.min
    else Config.SME_PROFILES_EB.loan_unsecured.min
  let max_limit := if pyLower loan_type = "secured" then Config.SME_PROFILES_EB.loan_secured.max
    else Config.SME_PROFILES_EB.loan_unsecured.max
  if loan_amount < min_limit then
    ⟨"FAIL", 0.99, "Loan amount £" ++ toString loan_amount ++ " is below the minimum allowed limit of £" ++ toString min_limit ++ " for EB " ++ loan_type ++ " loans."⟩
  else if loan_amount > max_limit then
    ⟨"FAIL", 0.99, "Loan amount £" ++ toString loan_amount ++ " exceeds the maximum allowed limit of £" ++ toString max_limit ++ " for EB " ++ loan_type ++ " loans."⟩
  else if risk_profile = "T2" ∧ dscr ≥ 1.50 ∧ loan_type = "unsecured" ∧ loan_amount ≤ 150000 then
    ⟨"PASS", 0.87, "EB/T2 with DSCR >150% qualifies for an unsecured loan."⟩
  else if risk_profile = "T2" ∧ dscr ≥ 1.50 ∧ loan_type = "secured" ∧ loan_amount ≤ 250000 then
    ⟨"PASS", 0.89, "EB/T2 with DSCR >150% qualifies for a secured loan."⟩
  else if risk_profile = "T3" ∧ dscr ≥ 1.50 ∧ loan_type = "unsecured" ∧ loan_amount ≤ 100000 then
    ⟨"FLAG/AI", 0.75, "EB/T3 with DSCR >150% (unsecured): AI review required."⟩
  else if risk_profile = "T3" ∧ dscr ≥ 1.50 ∧ loan_type = "secured" ∧ loan_amount ≤ 250000 then
    ⟨"FLAG/AI", 0.78, "EB/T3 with DSCR >150% (secured): AI review required."⟩
  else if risk_profile = "T1" ∧ 1.349 < dscr ∧ dscr ≤ 1.50 ∧ loan_type = "unsecured" ∧ loan_amount ≤ 150000 then
    ⟨"PASS", 0.85, "EB/T1 with DSCR just below 150% qualifies for an unsecured loan."⟩
  else if risk_profile = "T1" ∧ 1.349 < dscr ∧ dscr ≤ 1.50 ∧ loan_type = "secured" ∧ loan_amount ≤ 250000 then
    ⟨"PASS", 0.88, "EB/T1 with DSCR just below 150% qualifies for a secured loan."⟩
  else if 1.349 < dscr ∧ dscr ≤ 1.50 ∧ risk_profile = "T2" ∧ loan_type = "unsecured" ∧ loan_amount ≤ 100000 then
    ⟨"PASS", 0.80, "EB/T2 with DSCR just below 150% qualifies for an unsecured loan."⟩
  else if 1.349 < dscr ∧ dscr ≤ 1.50 ∧ risk_profile = "T2" ∧ loan_type = "secured" ∧ loan_amount ≤ 250000 then
    ⟨"PASS", 0.83, "EB/T2 with DSCR just below 150% qualifies for a secured loan."⟩
  else if 1.349 < dscr ∧ dscr ≤ 1.50 ∧ risk_profile = "T3" ∧ loan_type = "unsecured" ∧ loan_amount ≤ 75000 then
    ⟨"FLAG/UW", 0.70, "EB/T3 with DSCR just below 150%: underwriter review required (unsecured)."⟩
  else if 1.349 < dscr ∧ dscr ≤ 1.50 ∧ risk_profile = "T3" ∧ loan_type = "secured" ∧ loan_amount ≤ 250000 then
    ⟨"FLAG/UW", 0.72, "EB/T3 with DSCR just below 150%: underwriter review required (secured)."⟩
  else if 1.25 < dscr ∧ dscr ≤ 1.35 ∧ risk_profile = "T1" ∧ loan_type = "unsecured" ∧ loan_amount ≤ 100000 then
    ⟨"PASS", 0.78, "EB/T1 with DSCR between 125%-135% qualifies for an unsecured loan."⟩
  else if 1.25 < dscr ∧ dscr ≤ 1.35 ∧ risk_profile = "T1" ∧ loan_type = "secured" ∧ loan_amount ≤ 250000 then
    ⟨"PASS", 0.82, "EB/T1 with DSCR between 125%-135% qualifies for a secured loan."⟩
  else if 1.25 < dscr ∧ dscr ≤ 1.35 ∧ risk_profile = "T2" ∧ loan_type = "unsecured" ∧ loan_amount ≤ 75000 then
    ⟨"PASS", 0.75, "EB/T2 with DSCR between 125%-135% qualifies for an unsecured loan."⟩
  else if 1.25 < dscr ∧ dscr ≤ 1.35 ∧ risk_profile = "T2" ∧ loan_type = "secured" ∧ loan_amount ≤ 250000 then
    ⟨"PASS", 0.79, "EB/T2 with DSCR between 125%-135% qualifies for a secured loan."⟩
  else if 1.25 < dscr ∧ dscr ≤ 1.35 ∧ risk_profile = "T3" ∧ loan_type = "unsecured" ∧ loan_amount ≤ 50000 then
    ⟨"FLAG/AI", 0.65, "EB/T3 with DSCR between 125%-135%: AI review required (unsecured)."⟩
  else if 1.25 < dscr ∧ dscr ≤ 1.35 ∧ risk_profile = "T3" ∧ loan_type = "secured" ∧ loan_amount ≤ 250000 then
    ⟨"FLAG/UW", 0.70, "EB/T3 with DSCR between 125%-135%: underwriter review required (secured)."⟩
  else
    ⟨"CONDITIONAL_PASS", 0.99, fallback_explanation⟩

/-- evaluation_module.py evaluate_eb_risk: raises EvaluationError when
called with a non-EB profile, otherwise runs the EB table. -/
def evaluate_eb_risk (sme_profile risk_profile : String) (dscr loan_amount : ℚ) (loan_type : String) :
    Except PyErr Decision :=
  if sme_profile ≠ "EB" then Except.error PyErr.evaluationError
  else Except.ok (evaluate_eb_risk_body risk_profile dscr loan_amount loan_type)

/-- Body of evaluation_module.py evaluate_esb_risk after its profile guard. -/
def evaluate_esb_risk_body (risk_profile : String) (dscr loan_amount : ℚ) (loan_type : String) :
    Decision :=
  let min_limit := if pyLower loan_type = "secured" then Config.SME_PROFILES_ESB.loan_secured.min
    else Config.SME_PROFILES_ESB.loan_unsecured.min
  let max_limit := if pyLower loan_type = "secured" then Config.SME_PROFILES_ESB.loan_secured.max
    else Config.SME_PROFILES_ESB.loan_unsecured.max
  if loan_amount < min_limit then
    ⟨"FAIL", 0.99, "Loan amount £" ++ toString loan_amount ++ " is below the minimum allowed limit of £" ++ toString min_limit ++ " for ESB " ++ loan_type ++ " loans."⟩
  else if loan_amount > max_limit then
    ⟨"FAIL", 0.99, "Loan amount £" ++ toString loan_amount ++ " exceeds the maximum allowed limit of £" ++ toString max_limit ++ " for ESB " ++ loan_type ++ " loans."⟩
  else if risk_profile = "T1" ∧ dscr > 1.50 ∧ loan_type = "unsecured" ∧ loan_amount ≤ 80000 then
    ⟨"PASS", 0.88, "ESB/T1 with DSCR >150% qualifies for an unsecured loan."⟩
  else if risk_profile = "T1" ∧ dscr > 1.50 ∧ loan_type = "secured" ∧ loan_amount ≤ 150000 then
    ⟨"PASS", 0.90, "ESB/T1 with DSCR >150% qualifies for a secured loan."⟩
  else if risk_profile = "T2" ∧ dscr > 1.50 ∧ loan_type = "unsecured" ∧ loan_amount ≤ 75000 then
    ⟨"PASS", 0.85, "ESB/T2 with DSCR >150% qualifies for an unsecured loan."⟩
  else if risk_profile = "T2" ∧ dscr > 1.50 ∧ loan_type = "secured" ∧ loan_amount ≤ 150000 then
    ⟨"PASS", 0.87, "ESB/T2 with DSCR >150% qualifies for a secured loan."⟩
  else if risk_profile = "T3" ∧ dscr > 1.50 ∧ loan_type = "unsecured" ∧ loan_amount ≤ 60000 then
    ⟨"FLAG/AI", 0.70, "ESB/T3 with DSCR >150% (unsecured): AI review required."⟩
  else if risk_profile = "T3" ∧ dscr > 1.50 ∧ loan_type = "secured" ∧ loan_amount ≤ 150000 then
    ⟨"FLAG/UW", 0.72, "ESB/T3 with DSCR >150% (secured): underwriter review required."⟩
  else if risk_profile = "T1" ∧ 1.35 < dscr ∧ dscr ≤ 1.50 ∧ loan_type = "unsecured" ∧ loan_amount ≤ 80000 then
    ⟨"PASS", 0.85, "ESB/T1 with DSCR between 135%-150% qualifies for an unsecured loan."⟩
  else if risk_profile = "T1" ∧ 1.35 < dscr ∧ dscr ≤ 1.50 ∧ loan_type = "secured" ∧ loan_amount ≤ 150000 then
    ⟨"PASS", 0.87, "ESB/T1 with DSCR between 135%-150% qualifies for a secured loan."⟩
  else if risk_profile = "T2" ∧ 1.35 < dscr ∧ dscr ≤ 1.50 ∧ loan_type = "unsecured" ∧ loan_amount ≤ 75000 then
    ⟨"PASS", 0.82, "ESB/T2 with DSCR between 135%-150% qualifies for an unsecured loan."⟩
  else if risk_profile = "T2" ∧ 1.35 < dscr ∧ dscr ≤ 1.50 ∧ loan_type = "secured" ∧ loan_amount ≤ 150000 then
    ⟨"PASS", 0.85, "ESB/T2 with DSCR between 135%-150% qualifies for a secured loan."⟩
  else if risk_profile = "T3" ∧ 1.349 < dscr ∧ dscr ≤ 1.50 ∧ loan_type = "unsecured" ∧ loan_amount ≤ 50000 then
    ⟨"FLAG/AI", 0.70, "ESB/T3 with DSCR between 135%-150%: AI review required (unsecured)."⟩
  else if risk_profile = "T3" ∧ 1.349 < dscr ∧ dscr ≤ 1.50 ∧ loan_type = "secured" ∧ loan_amount ≤ 150000 then
    ⟨"FLAG/UW", 0.72, "ESB/T3 with DSCR between 135%-150%: underwriter review required (secured)."⟩
  else if risk_profile = "T1" ∧ 1.25 < dscr ∧ dscr ≤ 1.35 ∧ loan_type = "unsecured" ∧ loan_amount ≤ 60000 then
    ⟨"PASS", 0.80, "ESB/T1 with DSCR between 125%-135% qualifies for an unsecured loan."⟩
  else if risk_profile = "T1" ∧ 1.25 < dscr ∧ dscr ≤ 1.35 ∧ loan_type = "secured" ∧ loan_amount ≤ 150000 then
    ⟨"PASS", 0.83, "ESB/T1 with DSCR between 125%-135% qualifies for a secured loan."⟩
  else if risk_profile = "T2" ∧ 1.25 < dscr ∧ dscr < 1.35 ∧ loan_type = "unsecured" ∧ loan_amount ≤ 50000 then
    ⟨"PASS", 0.75, "ESB/T2 with DSCR >125% and <135% qualifies for a unsecured loan."⟩
  else if risk_profile = "T2" ∧ 1.25 < dscr ∧ dscr < 1.35 ∧ loan_type = "secured" ∧ loan_amount ≤ 150000 then
    ⟨"PASS", 0.78, "ESB/T2 with DSCR >125% and <135% qualifies for a secured loan."⟩
  else if risk_profile = "T3" ∧ 1.25 < dscr ∧ dscr < 1.35 ∧ loan_type = "unsecured" ∧ loan_amount ≤ 40000 then
    ⟨"FLAG/AI", 0.70, "ESB/T3 with DSCR >125% and <135%: AI review required (unsecured)."⟩
  else if risk_profile = "T3" ∧ 1.25 < dscr ∧ dscr < 1.35 ∧ loan_type = "secured" ∧ loan_amount ≤ 150000 then
    ⟨"FLAG/UW", 0.72, "ESB/T3 with DSCR >125% and <135%: underwriter review required (secured)."⟩
  else
    ⟨"CONDITIONAL_PASS", 0.99, fallback_explanation⟩

/-- evaluation_module.py evaluate_esb_risk with its profile guard. -/
def evaluate_esb_risk (sme_profile risk_profile : String) (dscr loan_amount : ℚ) (loan_type : String) :
    Except PyErr Decision :=
  if sme_profile ≠ "ESB" then Except.error PyErr.evaluationError
  else Except.ok (evaluate_esb_risk_body risk_profile dscr loan_amount loan_type)

/-- Body of evaluation_module.py evaluate_ntb_risk after its profile guard. -/
def evaluate_ntb_risk_body (risk_profile : String) (dscr loan_amount : ℚ) (loan_type : String) :
    Decision :=
  let min_limit := if pyLower loan_type = "secured" then Config.SME_PROFILES_NTB.loan_secured.min
    else Config.SME_PROFILES_NTB.loan_unsecured.min
  let max_limit := if pyLower loan_type = "secured" then Config.SME_PROFILES_NTB.loan_secured.max
    else Config.SME_PROFILES_NTB.loan_unsecured.max
  if loan_amount < min_limit then
    ⟨"FAIL", 0.99, "Loan amount £" ++ toString loan_amount ++ " is below the minimum allowed limit of £" ++ toString min_limit ++ " for NTB " ++ loan_type ++ " loans."⟩
  else if loan_amount > max_limit then
    ⟨"FAIL", 0.99, "Loan amount £" ++ toString loan_amount ++ " exceeds the maximum allowed limit of £" ++ toString max_limit ++ " for NTB " ++ loan_type ++ " loans."⟩
  else if risk_profile = "T1" ∧ dscr > 1.25 ∧ loan_type = "unsecured" ∧ loan_amount ≤ 60000 then
    ⟨"PASS", 0.80, "NTB/T1 with DSCR >125% qualifies for an unsecured loan."⟩
  else if risk_profile = "T1" ∧ dscr > 1.25 ∧ loan_type = "secured" ∧ dscr > 1.50 ∧ loan_amount ≤ 100000 then
    ⟨"PASS", 0.85, "NTB/T1 with DSCR >150% qualifies for a secured loan."⟩
  else if risk_profile = "T2" ∧ dscr > 1.35 ∧ loan_type = "unsecured" ∧ loan_amount ≤ 60000 then
    ⟨"PASS", 0.78, "NTB/T2 with DSCR >135% qualifies for an unsecured loan."⟩
  else if risk_profile = "T2" ∧ dscr > 1.35 ∧ loan_type = "secured" ∧ dscr > 1.50 ∧ loan_amount ≤ 100000 then
    ⟨"PASS", 0.80, "NTB/T2 with DSCR >150% qualifies for a secured loan."⟩
  else if risk_profile = "T3" ∧ dscr > 1.35 ∧ loan_type = "unsecured" ∧ loan_amount ≤ 60000 then
    ⟨"FLAG/AI", 0.70, "NTB/T3 with DSCR >135%: AI review required (unsecured)."⟩
  else if risk_profile = "T3" ∧ dscr > 1.35 ∧ loan_type = "secured" ∧ dscr > 1.25 ∧ loan_amount ≤ 150000 then
    ⟨"FLAG/UW", 0.72, "NTB/T3 with DSCR >125%: underwriter review required (secured)."⟩
  else if risk_profile = "T3" ∧ 1.25 < dscr ∧ dscr ≤ 1.35 ∧ loan_type = "unsecured" ∧ loan_amount ≤ 40000 then
    ⟨"FLAG/AI", 0.70, "NTB/T3 with DSCR between 125%-135%: AI review required (unsecured)."⟩
  else if risk_profile = "T3" ∧ 1.25 < dscr ∧ dscr ≤ 1.35 ∧ loan_type = "secured" ∧ loan_amount ≤ 150000 then
    ⟨"FLAG/UW", 0.72, "NTB/T3 with DSCR between 125%-135%: underwriter review required (secured)."⟩
  else
    ⟨"CONDITIONAL_PASS", 0.99, fallback_explanation⟩

/-- evaluation_module.py evaluate_ntb_risk with its profile guard. -/
def evaluate_ntb_risk (sme_profile risk_profile : String) (dscr loan_amount : ℚ) (loan_type : String) :
    Except PyErr Decision :=
  if sme_profile ≠ "NTB" then Except.error PyErr.evaluationError
  else Except.ok (evaluate_ntb_risk_body risk_profile dscr loan_amount loan_type)

/-- Body of evaluation_module.py evaluate_SU_risk after its profile guard. -/
def evaluate_SU_risk_body (risk_profile : String) (dscr loan_amount : ℚ) (loan_type : String) :
    Decision :=
  let min_limit := if pyLower loan_type = "secured" then Config.SME_PROFILES_SU.loan_secured.min
    else Config.SME_PROFILES_SU.loan_unsecured.min
  let max_limit := if pyLower loan_type = "secured" then Config.SME_PROFILES_SU.loan_secured.max
    else Config.SME_PROFILES_SU.loan_unsecured.max
  if loan_amount < min_limit then
    ⟨"FAIL", 0.99, "Loan amount £" ++ toString loan_amount ++ " is below the minimum allowed limit of £" ++ toString min_limit ++ " for SU " ++ loan_type ++ " loans."⟩
  else if loan_amount > max_limit then
    ⟨"FAIL", 0.99, "Loan amount £" ++ toString loan_amount ++ " exceeds the maximum allowed limit of £" ++ toString max_limit ++ " for SU " ++ loan_type ++ " loans."⟩
  else if risk_profile = "T2" ∧ dscr > 1.35 ∧ loan_type = "unsecured" ∧ loan_amount ≤ 40000 then
    ⟨"FLAG/AI", 0.72, "SU/T2 with DSCR >135%: AI review required (unsecured)."⟩
  else if risk_profile = "T2" ∧ dscr > 1.35 ∧ loan_type = "secured" ∧ loan_amount ≤ 80000 then
    ⟨"FLAG/AI", 0.75, "SU/T2 with DSCR >135%: AI review required (secured)."⟩
  else if risk_profile = "T3" ∧ dscr > 1.35 ∧ loan_type = "unsecured" ∧ loan_amount ≤ 40000 then
    ⟨"FLAG/UW", 0.70, "SU/T3 with DSCR >135%: underwriter review required (unsecured)."⟩
  else if risk_profile = "T3" ∧ dscr > 1.35 ∧ loan_type = "secured" ∧ loan_amount ≤ 80000 then
    ⟨"FLAG/UW", 0.73, "SU/T3 with DSCR >135%: underwriter review required (secured)."⟩
  else if risk_profile = "T1" ∧ 1.25 < dscr ∧ dscr ≤ 1.35 ∧ loan_type = "unsecured" ∧ loan_amount ≤ 40000 then
    ⟨"FLAG/AI", 0.70, "SU/T1 with DSCR between 125%-135%: AI review required (unsecured)."⟩
  else if risk_profile = "T1" ∧ 1.25 < dscr ∧ dscr ≤ 1.35 ∧ loan_type = "secured" ∧ loan_amount ≤ 80000 then
    ⟨"FLAG/AI", 0.73, "SU/T1 with DSCR between 125%-135%: AI review required (secured)."⟩
  else if risk_profile = "T2" ∧ dscr < 1.35 ∧ loan_type = "unsecured" ∧ loan_amount ≤ 40000 then
    ⟨"FAIL", 0.99, "SU/T2 with DSCR <135% (unsecured): Loan declined."⟩
  else if risk_profile = "T2" ∧ dscr < 1.35 ∧ loan_type = "secured" ∧ loan_amount ≤ 80000 then
    ⟨"FAIL", 0.99, "SU/T2 with DSCR <135% (secured): Loan declined."⟩
  else if risk_profile = "T3" ∧ dscr < 1.35 ∧ loan_type = "unsecured" ∧ loan_amount ≤ 26000 then
    ⟨"FAIL", 0.99, "SU/T3 with DSCR <135% (unsecured): Loan declined."⟩
  else if risk_profile = "T3" ∧ dscr < 1.35 ∧ loan_type = "secured" ∧ loan_amount ≤ 80000 then
    ⟨"FAIL", 0.99, "SU/T3 with DSCR <135% (secured): Loan declined."⟩
  else
    ⟨"CONDITIONAL_PASS", 0.99, fallback_explanation⟩

/-- evaluation_module.py evaluate_SU_risk with its profile guard. -/
def evaluate_SU_risk (sme_profile risk_profile : String) (dscr loan_amount : ℚ) (loan_type : String) :
    Except PyErr Decision :=
  if sme_profile ≠ "SU" then Except.error PyErr.evaluationError
  else Except.ok (evaluate_SU_risk_body risk_profile dscr loan_amount loan_type)

/-- evaluation_module.py evaluate_sme_risk: global checks, then the ordered
conditional-resolver chain (PG, debenture, legal charge, due diligence,
registration), then dispatch to the segment evaluator by profile.
`truncatedPct` models Python's `int(min_pg_required * 100)` (truncation
toward zero coincides with the floor for the non-negative fractions used). -/
def evaluate_sme_risk (sme_profile risk_profile : String) (dscr loan_amount : ℚ)
    (loan_type : String) (provided_pg min_pg_required : ℚ)
    (requires_debenture has_debenture has_legal_charge is_due_diligence_complete
      is_business_registered : Bool) : Except PyErr Decision :=
  match global_sme_checks dscr loan_amount with
  | some global_result => Except.ok global_result
  | none =>
    let truncatedPct : ℤ := ⌊min_pg_required * 100⌋
    if (sme_profile = "SU" ∨ sme_profile = "NTB" ∨ sme_profile = "ESB") ∧ provided_pg < min_pg_required then
      Except.ok ⟨"CONDITIONAL_PASS", 0.99, "Loan approved on condition that a minimum " ++ toString truncatedPct ++ "% Personal Guarantee (PG) is signed before funding."⟩
    else if (sme_profile = "NTB" ∨ sme_profile = "ESB" ∨ sme_profile = "EB") ∧ requires_debenture ∧ ¬has_debenture then
      Except.ok ⟨"CONDITIONAL_PASS", 0.99, "Loan approved on condition that a Debenture is signed before funding."⟩
    else if loan_type = "secured" ∧ ¬has_legal_charge then
      Except.ok ⟨"CONDITIONAL_PASS", 0.99, "Loan approved on condition that the lender obtains a Legal Charge (First or Second) over the security before funding."⟩
    else if ¬is_due_diligence_complete then
      Except.ok ⟨"CONDITIONAL_PASS", 0.99, "Loan approved on condition that all AML/KYC and Due Diligence checks are successfully completed before funding."⟩
    else if ¬is_business_registered then
      Except.ok ⟨"CONDITIONAL_PASS", 0.99, "Loan approved on condition that borrower provides proof of business registration before funding."⟩
    else if sme_profile = "EB" then
      evaluate_eb_risk sme_profile risk_profile dscr loan_amount loan_type
    else if sme_profile = "ESB" then
      evaluate_esb_risk sme_profile risk_profile dscr loan_amount loan_type
    else if sme_profile = "NTB" then
      evaluate_ntb_risk sme_profile risk_profile dscr loan_amount loan_type
    else if sme_profile = "SU" then
      evaluate_SU_risk sme_profile risk_profile dscr loan_amount loan_type
    else
      Except.ok ⟨"FAIL", 0.99, "Invalid SME profile."⟩

end EvaluationModule

namespace NarrativeLoop

/-- The generate/verify retry loop shared (up to initialization of the
`narrative` local) by evaluation_module.py generate_and_verify_narrative
and narrative.py generate_and_verify_narrative.

`gen attempt` models `generate_underwriter_narrative` on a given attempt
(`Except.error` = the call raised and was caught, triggering `continue`);
`chk attempt narrative` models `check_underwriter_narrative` likewise.
`narr` carries the current value of the Python local `narrative`
(`none` = never assigned). On loop exhaustion the Python code executes
`return narrative`, which raises UnboundLocalError when the local was
never assigned — modelled by `PyErr.nameError`. -/
def gvLoop (gen : ℕ → Except Unit String) (chk : ℕ → String → Except Unit String) :
    ℕ → ℕ → Option String → Except PyErr String
  | _, 0, narr =>
    match narr with
    | some n => Except.ok n
    | none => Except.error PyErr.nameError
  | attempt, remaining + 1, narr =>
    match gen attempt with
    | Except.error _ => gvLoop gen chk (attempt + 1) remaining narr
    | Except.ok narrative =>
      match chk attempt narrative with
      | Except.error _ => gvLoop gen chk (attempt + 1) remaining (some narrative)
      | Except.ok check_result =>
        if pyContains "No contradictions found" check_result then Except.ok narrative
        else gvLoop gen chk (attempt + 1) remaining (some narrative)

/-- evaluation_module.py generate_and_verify_narrative: max_retries = 3 and
the local `narrative` starts out unassigned. -/
def generate_and_verify_narrative_em (gen : ℕ → Except Unit String)
    (chk : ℕ → String → Except Unit String) : Except PyErr String :=
  gvLoop gen chk 0 3 none

/-- narrative.py generate_and_verify_narrative: max_retries = 3 and the
local is initialized as `narrative = ""` before the loop. -/
def generate_and_verify_narrative_nr (gen : ℕ → Except Unit String)
    (chk : ℕ → String → Except Unit String) : Except PyErr String :=
  gvLoop gen chk 0 3 (some "")

end NarrativeLoop

namespace Logic

/-- The decision dict of logic.py evaluate_application, which may later be
augmented with missing documents, overall risk and required PG. Fields that
Python adds to the dict only on some paths are `Option`s (`none` = the key
is absent). -/
structure AppOutcome where
  decision : String
  confidence : ℚ
  explanation : String
  missing_documents : Option (List (String × String))
  overall_risk : Option ℚ
  required_pg : Option ℚ

/-- Body of logic.py evaluate_eb_risk after its profile guard. The final
`if` chain has no fallback: control can fall off the end of the function,
which returns Python `None` — modelled as `none`. -/
def evaluate_eb_risk_body (risk_profile : String) (dscr loan_amount : ℚ) (loan_type : String) :
    Option Decision :=
  let min_limit := if pyLower loan_type = "secured" then Config.SME_PROFILES_EB.loan_secured.min
    else Config.SME_PROFILES_EB.loan_unsecured.min
  let max_limit := if pyLower loan_type = "secured" then Config.SME_PROFILES_EB.loan_secured.max
    else Config.SME_PROFILES_EB.loan_unsecured.max
  if dscr < Config.MIN_DSCR then
    some ⟨"FAIL", 0.99, "DSCR of " ++ toString dscr ++ " is below the minimum allowed DSCR of " ++ toString Config.MIN_DSCR ++ ". Loan declined."⟩
  else if loan_amount < min_limit then
    some ⟨"FAIL", 0.99, "Loan amount £" ++ toString loan_amount ++ " is below the minimum allowed limit of £" ++ toString min_limit ++ " for EB " ++ loan_type ++ " loans."⟩
  else if loan_amount > max_limit then
    some ⟨"FAIL", 0.99, "Loan amount £" ++ toString loan_amount ++ " exceeds the maximum allowed limit of £" ++ toString max_limit ++ " for EB " ++ loan_type ++ " loans."⟩
  else if risk_profile = "T1" ∧ dscr ≥ 1.25 ∧ loan_type = "unsecured" ∧ loan_amount ≤ 150000 then
    some ⟨"PROGRESS", 0.87, "EB/T1 with DSCR >125% qualifies for an unsecured loan up to £150,000."⟩
  else if risk_profile = "T1" ∧ dscr ≥ 1.25 ∧ loan_type = "secured" ∧ loan_amount ≤ 250000 then
    some ⟨"PROGRESS", 0.89, "EB/T1 with DSCR >150% qualifies for a secured loan."⟩
  else if risk_profile = "T2" ∧ dscr ≥ 1.25 ∧ loan_type = "unsecured" ∧ loan_amount ≤ 150000 then
    some ⟨"PROGRESS", 0.77, "EB/T2 with DSCR >125% qualifies for an unsecured loan up to £150,000."⟩
  else if risk_profile = "T2" ∧ dscr ≥ 1.25 ∧ loan_type = "secured" ∧ loan_amount ≤ 250000 then
    some ⟨"PROGRESS", 0.89, "EB/T2 with DSCR >150% qualifies for a secured loan."⟩
  else
    none

/-- logic.py evaluate_eb_risk with its profile guard. -/
def evaluate_eb_risk (sme_profile risk_profile : String) (dscr loan_amount : ℚ) (loan_type : String) :
    Except PyErr (Option Decision) :=
  if sme_profile ≠ "EB" then Except.error PyErr.evaluationError
  else Except.ok (evaluate_eb_risk_body risk_profile dscr loan_amount loan_type)

/-- Body of logic.py evaluate_esb_risk after its profile guard (in this
variant the DSCR hard stop precedes the limit computation in the source;
both are pure, so the order of the two `let`s is immaterial). No fallback:
unmatched combinations return `none`. -/
def evaluate_esb_risk_body (risk_profile : String) (dscr loan_amount : ℚ) (loan_type : String) :
    Option Decision :=
  let min_limit := if pyLower loan_type = "secured" then Config.SME_PROFILES_ESB.loan_secured.min
    else Config.SME_PROFILES_ESB.loan_unsecured.min
  let max_limit := if pyLower loan_type = "secured" then Config.SME_PROFILES_ESB.loan_secured.max
    else Config.SME_PROFILES_ESB.loan_unsecured.max
  if dscr < Config.MIN_DSCR then
    some ⟨"FAIL", 0.99, "DSCR of " ++ toString dscr ++ " is below the minimum allowed DSCR of " ++ toString Config.MIN_DSCR ++ ". Loan declined."⟩
  else if loan_amount < min_limit then
    some ⟨"FAIL", 0.99, "Loan amount £" ++ toString loan_amount ++ " is below the minimum allowed limit of £" ++ toString min_limit ++ " for ESB " ++ loan_type ++ " loans."⟩
  else if loan_amount > max_limit then
    some ⟨"FAIL", 0.99, "Loan amount £" ++ toString loan_amount ++ " exceeds the maximum allowed limit of £" ++ toString max_limit ++ " for ESB " ++ loan_type ++ " loans."⟩
  else if risk_profile = "T1" ∧ dscr ≥ 1.25 ∧ loan_type = "unsecured" ∧ loan_amount ≤ 80000 then
    some ⟨"PROGRESS", 0.88, "ESB/T1 with DSCR >125% qualifies for an unsecured loan."⟩
  else if risk_profile = "T1" ∧ dscr ≥ 1.25 ∧ loan_type = "secured" ∧ loan_amount ≤ 150000 then
    some ⟨"PROGRESS", 0.88, "ESB/T1 with DSCR >125% qualifies for a secured loan."⟩
  else if risk_profile = "T2" ∧ dscr ≥ 1.25 ∧ loan_type = "unsecured" ∧ loan_amount ≤ 80000 then
    some ⟨"PROGRESS", 0.88, "ESB/T2 with DSCR >125% qualifies for an unsecured loan."⟩
  else if risk_profile = "T2" ∧ dscr ≥ 1.25 ∧ loan_type = "secured" ∧ loan_amount ≤ 150000 then
    some ⟨"PROGRESS", 0.88, "ESB/T2 with DSCR >125% qualifies for a secured loan."⟩
  else
    none

/-- logic.py evaluate_esb_risk with its profile guard. -/
def evaluate_esb_risk (sme_profile risk_profile : String) (dscr loan_amount : ℚ) (loan_type : String) :
    Except PyErr (Option Decision) :=
  if sme_profile ≠ "ESB" then Except.error PyErr.evaluationError
  else Except.ok (evaluate_esb_risk_body risk_profile dscr loan_amount loan_type)

/-- Body of logic.py evaluate_ntb_risk after its profile guard. No
fallback: unmatched combinations return `none`. -/
def evaluate_ntb_risk_body (risk_profile : String) (dscr loan_amount : ℚ) (loan_type : String) :
    Option Decision :=
  let min_limit := if pyLower loan_type = "secured" then Config.SME_PROFILES_NTB.loan_secured.min
    else Config.SME_PROFILES_NTB.loan_unsecured.min
  let max_limit := if pyLower loan_type = "secured" then Config.SME_PROFILES_NTB.loan_secured.max
    else Config.SME_PROFILES_NTB.loan_unsecured.max
  if dscr < Config.MIN_DSCR then
    some ⟨"FAIL", 0.99, "DSCR of " ++ toString dscr ++ " is below the minimum allowed DSCR of " ++ toString Config.MIN_DSCR ++ ". Loan declined."⟩
  else if loan_amount < min_limit then
    some ⟨"FAIL", 0.99, "Loan amount £" ++ toString loan_amount ++ " is below the minimum allowed limit of £" ++ toString min_limit ++ " for NTB " ++ loan_type ++ " loans."⟩
  else if loan_amount > max_limit then
    some ⟨"FAIL", 0.99, "Loan amount £" ++ toString loan_amount ++ " exceeds the maximum allowed limit of £" ++ toString max_limit ++ " for NTB " ++ loan_type ++ " loans."⟩
  else if risk_profile = "T1" ∧ dscr ≥ 1.25 ∧ loan_type = "unsecured" ∧ loan_amount ≤ 60000 then
    some ⟨"PROGRESS", 0.80, "NTB/T1 with DSCR >125% qualifies for an unsecured loan."⟩
  else if risk_profile = "T1" ∧ dscr ≥ 1.25 ∧ loan_type = "secured" ∧ dscr > 1.25 ∧ loan_amount ≤ 100000 then
    some ⟨"PROGRESS", 0.85, "NTB/T1 with DSCR >150% qualifies for a secured loan."⟩
  else if risk_profile = "T2" ∧ dscr ≥ 1.25 ∧ loan_type = "unsecured" ∧ loan_amount ≤ 60000 then
    some ⟨"PROGRESS", 0.80, "NTB/T2 with DSCR >125% qualifies for an unsecured loan."⟩
  else if risk_profile = "T2" ∧ dscr ≥ 1.25 ∧ loan_type = "secured" ∧ dscr > 1.25 ∧ loan_amount ≤ 100000 then
    some ⟨"PROGRESS", 0.85, "NTB/T2 with DSCR >150% qualifies for a secured loan."⟩
  else
    none

/-- logic.py evaluate_ntb_risk with its profile guard. -/
def evaluate_ntb_risk (sme_profile risk_profile : String) (dscr loan_amount : ℚ) (loan_type : String) :
    Except PyErr (Option Decision) :=
  if sme_profile ≠ "NTB" then Except.error PyErr.evaluationError
  else Except.ok (evaluate_ntb_risk_body risk_profile dscr loan_amount loan_type)

/-- Python `dict.update`: keys of `base` keep their position (values
overridden by `upd` where present), new keys of `upd` are appended. -/
def dictUpdate (base upd : List (String × String)) : List (String × String) :=
  (base.map fun p =>
    match upd.lookup p.1 with
    | some v => (p.1, v)
    | none => p) ++
  upd.filter fun q => (base.lookup q.1).isNone

/-- logic.py finalize_conditional_pass: merge common and segment-specific
required documents, compute the ones not in `provided_docs`, switch the
decision to CONDITIONAL_PASS and attach the missing-document map. -/
def finalize_conditional_pass (decision : AppOutcome) (provided_docs : List String)
    (sme_profile : String) : AppOutcome :=
  let required_docs :=
    match Config.REQUIRED_DOCUMENTS sme_profile with
    | some seg => dictUpdate Config.REQUIRED_DOCUMENTS_common seg
    | none => Config.REQUIRED_DOCUMENTS_common
  let missing_docs := required_docs.filter fun p => p.1 ∉ provided_docs
  { decision with
      decision := "CONDITIONAL_PASS"
      missing_documents := some missing_docs
      explanation := decision.explanation ++ " Conditional approval pending submission of required documents." }

/-- logic.py get_dscr_level. -/
def get_dscr_level (dscr : ℚ) : String :=
  if dscr ≥ 1.5 then "high"
  else if dscr ≥ 1.35 then "medium"
  else "low"

/-- Lift a plain decision dict into the richer outcome shape (the Python
dict simply has no extra keys yet). -/
def ofDecision (d : Decision) : AppOutcome :=
  ⟨d.decision, d.confidence, d.explanation, none, none, none⟩

/-- logic.py evaluate_application: global checks, segment dispatch,
PROGRESS → CONDITIONAL_PASS finalization, then overall risk and required
PG are attached to whatever decision came back from the segment evaluator.
When the segment evaluator fell through and returned `None`, the line
`decision["decision"] == ...` raises TypeError. -/
def evaluate_application (sme_profile risk_profile : String) (dscr loan_amount : ℚ)
    (loan_type industry_sector : String) (provided_docs : List String) :
    Except PyErr AppOutcome :=
  if dscr < Config.MIN_DSCR then
    Except.ok (ofDecision ⟨"FAIL", 0.99, "DSCR of " ++ toString dscr ++ " is below the minimum threshold of " ++ toString Config.MIN_DSCR ++ ". Loan declined."⟩)
  else if loan_amount < Config.MIN_LOAN_AMOUNT then
    Except.ok (ofDecision ⟨"FAIL", 0.99, "Loan amount £" ++ toString loan_amount ++ " is below the minimum threshold of £" ++ toString Config.MIN_LOAN_AMOUNT ++ "."⟩)
  else if sme_profile ≠ "EB" ∧ sme_profile ≠ "ESB" ∧ sme_profile ≠ "NTB" then
    -- the `else` arm of the dispatch returns its FAIL dict immediately,
    -- before the risk-aggregation step
    Except.ok (ofDecision ⟨"FAIL", 0.99, "SME profile '" ++ sme_profile ++ "' is not supported for the Happy Path."⟩)
  else do
    let segResult : Option Decision ←
      if sme_profile = "EB" then
        evaluate_eb_risk sme_profile risk_profile dscr loan_amount loan_type
      else if sme_profile = "ESB" then
        evaluate_esb_risk sme_profile risk_profile dscr loan_amount loan_type
      else
        evaluate_ntb_risk sme_profile risk_profile dscr loan_amount loan_type
    match segResult with
    | none => Except.error PyErr.typeError
    | some d =>
      let outcome := if d.decision = "PROGRESS"
        then finalize_conditional_pass (ofDecision d) provided_docs sme_profile
        else ofDecision d
      let overall_risk := Config.calculate_overall_risk sme_profile (get_dscr_level dscr)
        risk_profile industry_sector
      Except.ok { outcome with
        overall_risk := some overall_risk
        required_pg := some (Config.determine_pg_percentage overall_risk) }

end Logic

namespace Main

/-- main.py global_sme_checks. Note this variant compares `dscr < 125`,
treating DSCR as a whole percentage, and its second explanation carries
the mojibake "Â£" present in the source bytes. An empty dict return is
modelled as `none`. -/
def global_sme_checks (dscr loan_amount : ℚ) : Option Decision :=
  if dscr < 125 then
    some ⟨"FAIL", 0.99, "DSCR <125%. Loan declined."⟩
  else if loan_amount < 25001 then
    some ⟨"FAIL", 0.99, "Loan amount below Â£25,001. Does not meet minimum threshold."⟩
  else
    none

/-- main.py evaluate_eb_risk: a third rule-table variant with no profile
guard and no min/max hard stops (the `base_conf` / `min_loan` / `max_loan`
locals read from main.py's SME_PROFILES are never used). Its fallback is a
REQUIREMENT decision. -/
def evaluate_eb_risk (risk_profile : String) (dscr loan_amount : ℚ) (loan_type : String) :
    Decision :=
  if risk_profile = "T1" ∧ dscr ≥ 1.50 ∧ loan_type = "unsecured" ∧ loan_amount ≤ 150000 then
    ⟨"PASS", 0.90, "EB/T1 with DSCR >150% qualifies for an unsecured loan."⟩
  else if risk_profile = "T1" ∧ dscr ≥ 1.50 ∧ loan_type = "secured" ∧ loan_amount ≤ 250000 then
    ⟨"PASS", 0.92, "EB/T1 with DSCR >150% qualifies for a secured loan."⟩
  else if risk_profile = "T2" ∧ dscr ≥ 1.50 ∧ loan_type = "unsecured" ∧ loan_amount ≤ 150000 then
    ⟨"PASS", 0.87, "EB/T2 with DSCR >150% qualifies for an unsecured loan."⟩
  else if risk_profile = "T2" ∧ dscr ≥ 1.50 ∧ loan_type = "secured" ∧ loan_amount ≤ 250000 then
    ⟨"PASS", 0.89, "EB/T2 with DSCR >150% qualifies for a secured loan."⟩
  else if risk_profile = "T3" ∧ dscr ≥ 1.50 ∧ loan_type = "unsecured" ∧ loan_amount ≤ 100000 then
    ⟨"FLAG/AI", 0.75, "EB/T3 with DSCR >150% (unsecured): AI review required."⟩
  else if risk_profile = "T3" ∧ dscr ≥ 1.50 ∧ loan_type = "secured" ∧ loan_amount ≤ 250000 then
    ⟨"FLAG/AI", 0.78, "EB/T3 with DSCR >150% (secured): AI review required."⟩
  else if risk_profile = "T1" ∧ 1.349 < dscr ∧ dscr ≤ 1.50 ∧ loan_type = "unsecured" ∧ loan_amount ≤ 150000 then
    ⟨"PASS", 0.85, "EB/T1 with DSCR just below 150% qualifies for an unsecured loan."⟩
  else if risk_profile = "T1" ∧ 1.349 < dscr ∧ dscr ≤ 1.50 ∧ loan_type = "secured" ∧ loan_amount ≤ 250000 then
    ⟨"PASS", 0.88, "EB/T1 with DSCR just below 150% qualifies for a secured loan."⟩
  else if 1.349 < dscr ∧ dscr ≤ 1.50 ∧ risk_profile = "T2" ∧ loan_type = "unsecured" ∧ loan_amount ≤ 100000 then
    ⟨"PASS", 0.80, "EB/T2 with DSCR just below 150% qualifies for an unsecured loan."⟩
  else if 1.349 < dscr ∧ dscr ≤ 1.50 ∧ risk_profile = "T2" ∧ loan_type = "secured" ∧ loan_amount ≤ 250000 then
    ⟨"PASS", 0.83, "EB/T2 with DSCR just below 150% qualifies for a secured loan."⟩
  else if 1.349 < dscr ∧ dscr ≤ 1.50 ∧ risk_profile = "T3" ∧ loan_type = "unsecured" ∧ loan_amount ≤ 75000 then
    ⟨"FLAG/UW", 0.70, "EB/T3 with DSCR just below 150%: underwriter review required (unsecured)."⟩
  else if 1.349 < dscr ∧ dscr ≤ 1.50 ∧ risk_profile = "T3" ∧ loan_type = "secured" ∧ loan_amount ≤ 250000 then
    ⟨"FLAG/UW", 0.72, "EB/T3 with DSCR just below 150%: underwriter review required (secured)."⟩
  else if 1.25 < dscr ∧ dscr ≤ 1.35 ∧ risk_profile = "T1" ∧ loan_type = "unsecured" ∧ loan_amount ≤ 100000 then
    ⟨"PASS", 0.78, "EB/T1 with DSCR between 125%-135% qualifies for an unsecured loan."⟩
  else if 1.25 < dscr ∧ dscr ≤ 1.35 ∧ risk_profile = "T1" ∧ loan_type = "secured" ∧ loan_amount ≤ 250000 then
    ⟨"PASS", 0.82, "EB/T1 with DSCR between 125%-135% qualifies for a secured loan."⟩
  else if 1.25 < dscr ∧ dscr ≤ 1.35 ∧ risk_profile = "T2" ∧ loan_type = "unsecured" ∧ loan_amount ≤ 75000 then
    ⟨"PASS", 0.75, "EB/T2 with DSCR between 125%-135% qualifies for an unsecured loan."⟩
  else if 1.25 < dscr ∧ dscr ≤ 1.35 ∧ risk_profile = "T2" ∧ loan_type = "secured" ∧ loan_amount ≤ 250000 then
    ⟨"PASS", 0.79, "EB/T2 with DSCR between 125%-135% qualifies for a secured loan."⟩
  else if 1.25 < dscr ∧ dscr ≤ 1.35 ∧ risk_profile = "T3" ∧ loan_type = "unsecured" ∧ loan_amount ≤ 50000 then
    ⟨"FLAG/AI", 0.65, "EB/T3 with DSCR between 125%-135%: AI review required (unsecured)."⟩
  else if 1.25 < dscr ∧ dscr ≤ 1.35 ∧ risk_profile = "T3" ∧ loan_type = "secured" ∧ loan_amount ≤ 250000 then
    ⟨"FLAG/UW", 0.70, "EB/T3 with DSCR between 125%-135%: underwriter review required (secured)."⟩
  else
    ⟨"REQUIREMENT", 0.99, "Debenture and a minimum of 20% personal guarantee (PG) required."⟩

/-- main.py evaluate_esb_risk (no guard, no limit stops, REQUIREMENT
fallback). -/
def evaluate_esb_risk (risk_profile : String) (dscr loan_amount : ℚ) (loan_type : String) :
    Decision :=
  if risk_profile = "T1" ∧ dscr > 1.50 ∧ loan_type = "unsecured" ∧ loan_amount ≤ 80000 then
    ⟨"PASS", 0.88, "ESB/T1 with DSCR >150% qualifies for an unsecured loan."⟩
  else if risk_profile = "T1" ∧ dscr > 1.50 ∧ loan_type = "secured" ∧ loan_amount ≤ 150000 then
    ⟨"PASS", 0.90, "ESB/T1 with DSCR >150% qualifies for a secured loan."⟩
  else if risk_profile = "T2" ∧ dscr > 1.50 ∧ loan_type = "unsecured" ∧ loan_amount ≤ 75000 then
    ⟨"PASS", 0.85, "ESB/T2 with DSCR >150% qualifies for an unsecured loan."⟩
  else if risk_profile = "T2" ∧ dscr > 1.50 ∧ loan_type = "secured" ∧ loan_amount ≤ 150000 then
    ⟨"PASS", 0.87, "ESB/T2 with DSCR >150% qualifies for a secured loan."⟩
  else if risk_profile = "T3" ∧ dscr > 1.50 ∧ loan_type = "unsecured" ∧ loan_amount ≤ 60000 then
    ⟨"FLAG/AI", 0.70, "ESB/T3 with DSCR >150% (unsecured): AI review required."⟩
  else if risk_profile = "T3" ∧ dscr > 1.50 ∧ loan_type = "secured" ∧ loan_amount ≤ 150000 then
    ⟨"FLAG/UW", 0.72, "ESB/T3 with DSCR >150% (secured): underwriter review required."⟩
  else if risk_profile = "T1" ∧ 1.35 < dscr ∧ dscr ≤ 1.50 ∧ loan_type = "unsecured" ∧ loan_amount ≤ 80000 then
    ⟨"PASS", 0.85, "ESB/T1 with DSCR between 135%-150% qualifies for an unsecured loan."⟩
  else if risk_profile = "T1" ∧ 1.35 < dscr ∧ dscr ≤ 1.50 ∧ loan_type = "secured" ∧ loan_amount ≤ 150000 then
    ⟨"PASS", 0.87, "ESB/T1 with DSCR between 135%-150% qualifies for a secured loan."⟩
  else if risk_profile = "T2" ∧ 1.35 < dscr ∧ dscr ≤ 1.50 ∧ loan_type = "unsecured" ∧ loan_amount ≤ 75000 then
    ⟨"PASS", 0.82, "ESB/T2 with DSCR between 135%-150% qualifies for an unsecured loan."⟩
  else if risk_profile = "T2" ∧ 1.35 < dscr ∧ dscr ≤ 1.50 ∧ loan_type = "secured" ∧ loan_amount ≤ 150000 then
    ⟨"PASS", 0.85, "ESB/T2 with DSCR between 135%-150% qualifies for a secured loan."⟩
  else if risk_profile = "T3" ∧ 1.349 < dscr ∧ dscr ≤ 1.50 ∧ loan_type = "unsecured" ∧ loan_amount ≤ 50000 then
    ⟨"FLAG/AI", 0.70, "ESB/T3 with DSCR between 135%-150%: AI review required (unsecured)."⟩
  else if risk_profile = "T3" ∧ 1.349 < dscr ∧ dscr ≤ 1.50 ∧ loan_type = "secured" ∧ loan_amount ≤ 150000 then
    ⟨"FLAG/UW", 0.72, "ESB/T3 with DSCR between 135%-150%: underwriter review required (secured)."⟩
  else if risk_profile = "T1" ∧ 1.25 < dscr ∧ dscr ≤ 1.35 ∧ loan_type = "unsecured" ∧ loan_amount ≤ 60000 then
    ⟨"PASS", 0.80, "ESB/T1 with DSCR between 125%-135% qualifies for an unsecured loan."⟩
  else if risk_profile = "T1" ∧ 1.25 < dscr ∧ dscr ≤ 1.35 ∧ loan_type = "secured" ∧ loan_amount ≤ 150000 then
    ⟨"PASS", 0.83, "ESB/T1 with DSCR between 125%-135% qualifies for a secured loan."⟩
  else if risk_profile = "T2" ∧ 1.25 < dscr ∧ dscr < 1.35 ∧ loan_type = "unsecured" ∧ loan_amount ≤ 50000 then
    ⟨"PASS", 0.75, "ESB/T2 with DSCR >125% and <135% qualifies for an unsecured loan."⟩
  else if risk_profile = "T2" ∧ 1.25 < dscr ∧ dscr < 1.35 ∧ loan_type = "secured" ∧ loan_amount ≤ 150000 then
    ⟨"PASS", 0.78, "ESB/T2 with DSCR >125% and <135% qualifies for a secured loan."⟩
  else if risk_profile = "T3" ∧ 1.25 < dscr ∧ dscr < 1.35 ∧ loan_type = "unsecured" ∧ loan_amount ≤ 40000 then
    ⟨"FLAG/AI", 0.70, "ESB/T3 with DSCR >125% and <135%: AI review required (unsecured)."⟩
  else if risk_profile = "T3" ∧ 1.25 < dscr ∧ dscr < 1.35 ∧ loan_type = "secured" ∧ loan_amount ≤ 150000 then
    ⟨"FLAG/UW", 0.72, "ESB/T3 with DSCR >125% and <135%: underwriter review required (secured)."⟩
  else
    ⟨"REQUIREMENT", 0.99, "Debenture and a minimum of 25% personal guarantee (PG) required."⟩

/-- main.py evaluate_ntb_risk (REQUIREMENT fallback). -/
def evaluate_ntb_risk (risk_profile : String) (dscr loan_amount : ℚ) (loan_type : String) :
    Decision :=
  if risk_profile = "T1" ∧ dscr > 1.25 ∧ loan_type = "unsecured" ∧ loan_amount ≤ 60000 then
    ⟨"PASS", 0.80, "NTB/T1 with DSCR >125% qualifies for an unsecured loan."⟩
  else if risk_profile = "T1" ∧ dscr > 1.25 ∧ loan_type = "secured" ∧ dscr > 1.50 ∧ loan_amount ≤ 100000 then
    ⟨"PASS", 0.85, "NTB/T1 with DSCR >150% qualifies for a secured loan."⟩
  else if risk_profile = "T2" ∧ dscr > 1.35 ∧ loan_type = "unsecured" ∧ loan_amount ≤ 60000 then
    ⟨"PASS", 0.78, "NTB/T2 with DSCR >135% qualifies for an unsecured loan."⟩
  else if risk_profile = "T2" ∧ dscr > 1.35 ∧ loan_type = "secured" ∧ dscr > 1.50 ∧ loan_amount ≤ 100000 then
    ⟨"PASS", 0.80, "NTB/T2 with DSCR >150% qualifies for a secured loan."⟩
  else if risk_profile = "T3" ∧ dscr > 1.35 ∧ loan_type = "unsecured" ∧ loan_amount ≤ 60000 then
    ⟨"FLAG/AI", 0.70, "NTB/T3 with DSCR >135%: AI review required (unsecured)."⟩
  else if risk_profile = "T3" ∧ dscr > 1.35 ∧ loan_type = "secured" ∧ dscr > 1.25 ∧ loan_amount ≤ 150000 then
    ⟨"FLAG/UW", 0.72, "NTB/T3 with DSCR >125%: underwriter review required (secured)."⟩
  else if risk_profile = "T3" ∧ 1.25 < dscr ∧ dscr ≤ 1.35 ∧ loan_type = "unsecured" ∧ loan_amount ≤ 40000 then
    ⟨"FLAG/AI", 0.70, "NTB/T3 with DSCR between 125%-135%: AI review required (unsecured)."⟩
  else if risk_profile = "T3" ∧ 1.25 < dscr ∧ dscr ≤ 1.35 ∧ loan_type = "secured" ∧ loan_amount ≤ 150000 then
    ⟨"FLAG/UW", 0.72, "NTB/T3 with DSCR between 125%-135%: underwriter review required (secured)."⟩
  else
    ⟨"REQUIREMENT", 0.99, "Debenture and a minimum of 50% personal guarantee (PG) required."⟩

/-- main.py evaluate_su_risk (REQUIREMENT fallback; FAIL rows for low-DSCR
T2/T3 startups). -/
def evaluate_su_risk (risk_profile : String) (dscr loan_amount : ℚ) (loan_type : String) :
    Decision :=
  if risk_profile = "T1" ∧ dscr > 1.349 ∧ loan_type = "unsecured" ∧ loan_amount ≤ 40000 then
    ⟨"PASS", 0.78, "SU/T1 with DSCR >135% qualifies for an unsecured loan."⟩
  else if risk_profile = "T1" ∧ dscr > 1.349 ∧ loan_type = "secured" ∧ loan_amount ≤ 80000 then
    ⟨"PASS", 0.82, "SU/T1 with DSCR >135% qualifies for a secured loan."⟩
  else if risk_profile = "T2" ∧ dscr > 1.35 ∧ loan_type = "unsecured" ∧ loan_amount ≤ 40000 then
    ⟨"FLAG/AI", 0.72, "SU/T2 with DSCR >135%: AI review required (unsecured)."⟩
  else if risk_profile = "T2" ∧ dscr > 1.35 ∧ loan_type = "secured" ∧ loan_amount ≤ 80000 then
    ⟨"FLAG/AI", 0.75, "SU/T2 with DSCR >135%: AI review required (secured)."⟩
  else if risk_profile = "T3" ∧ dscr > 1.35 ∧ loan_type = "unsecured" ∧ loan_amount ≤ 40000 then
    ⟨"FLAG/UW", 0.70, "SU/T3 with DSCR >135%: underwriter review required (unsecured)."⟩
  else if risk_profile = "T3" ∧ dscr > 1.35 ∧ loan_type = "secured" ∧ loan_amount ≤ 80000 then
    ⟨"FLAG/UW", 0.73, "SU/T3 with DSCR >135%: underwriter review required (secured)."⟩
  else if risk_profile = "T1" ∧ 1.25 < dscr ∧ dscr ≤ 1.35 ∧ loan_type = "unsecured" ∧ loan_amount ≤ 40000 then
    ⟨"FLAG/AI", 0.70, "SU/T1 with DSCR between 125%-135%: AI review required (unsecured)."⟩
  else if risk_profile = "T1" ∧ 1.25 < dscr ∧ dscr ≤ 1.35 ∧ loan_type = "secured" ∧ loan_amount ≤ 80000 then
    ⟨"FLAG/AI", 0.73, "SU/T1 with DSCR between 125%-135%: AI review required (secured)."⟩
  else if risk_profile = "T2" ∧ dscr < 1.35 ∧ loan_type = "unsecured" ∧ loan_amount ≤ 40000 then
    ⟨"FAIL", 0.99, "SU/T2 with DSCR <135% (unsecured): Loan declined."⟩
  else if risk_profile = "T2" ∧ dscr < 1.35 ∧ loan_type = "secured" ∧ loan_amount ≤ 80000 then
    ⟨"FAIL", 0.99, "SU/T2 with DSCR <135% (secured): Loan declined."⟩
  else if risk_profile = "T3" ∧ dscr < 1.35 ∧ loan_type = "unsecured" ∧ loan_amount ≤ 26000 then
    ⟨"FAIL", 0.99, "SU/T3 with DSCR <135% (unsecured): Loan declined."⟩
  else if risk_profile = "T3" ∧ dscr < 1.35 ∧ loan_type = "secured" ∧ loan_amount ≤ 80000 then
    ⟨"FAIL", 0.99, "SU/T3 with DSCR <135% (secured): Loan declined."⟩
  else
    ⟨"REQUIREMENT", 0.99, "Debenture and a minimum of 50% personal guarantee (PG) required."⟩

/-- main.py evaluate_sme_risk (the /evaluate/sme-risk endpoint body):
global checks, the conditional-approval chain (tag "CONDITIONAL APPROVAL"
in this file), then profile dispatch. -/
def evaluate_sme_risk (sme_profile risk_profile : String) (dscr loan_amount : ℚ)
    (loan_type : String) (provided_pg min_pg_required : ℚ)
    (requires_debenture has_debenture has_legal_charge is_due_diligence_complete
      is_business_registered : Bool) : Decision :=
  match global_sme_checks dscr loan_amount with
  | some global_result => global_result
  | none =>
    let truncatedPct : ℤ := ⌊min_pg_required * 100⌋
    if (sme_profile = "SU" ∨ sme_profile = "NTB" ∨ sme_profile = "ESB") ∧ provided_pg < min_pg_required then
      ⟨"CONDITIONAL APPROVAL", 0.99, "Loan approved on condition that a minimum " ++ toString truncatedPct ++ "% Personal Guarantee (PG) is signed before funding."⟩
    else if (sme_profile = "NTB" ∨ sme_profile = "ESB" ∨ sme_profile = "EB") ∧ requires_debenture ∧ ¬has_debenture then
      ⟨"CONDITIONAL APPROVAL", 0.99, "Loan approved on condition that a Debenture is signed before funding."⟩
    else if loan_type = "secured" ∧ ¬has_legal_charge then
      ⟨"CONDITIONAL APPROVAL", 0.99, "Loan approved on condition that the lender obtains a Legal Charge (First or Second) over the security before funding."⟩
    else if ¬is_due_diligence_complete then
      ⟨"CONDITIONAL APPROVAL", 0.99, "Loan approved on condition that all AML/KYC and Due Diligence checks are successfully completed before funding."⟩
    else if ¬is_business_registered then
      ⟨"CONDITIONAL APPROVAL", 0.99, "Loan approved on condition that borrower provides proof of business registration before funding."⟩
    else if sme_profile = "EB" then
      evaluate_eb_risk risk_profile dscr loan_amount loan_type
    else if sme_profile = "ESB" then
      evaluate_esb_risk risk_profile dscr loan_amount loan_type
    else if sme_profile = "NTB" then
      evaluate_ntb_risk risk_profile dscr loan_amount loan_type
    else if sme_profile = "SU" then
      evaluate_su_risk risk_profile dscr loan_amount loan_type
    else
      ⟨"FAIL", 0.99, "Invalid SME profile."⟩

end Main

/-- The favourability order over decision tags given by the spec:
FAIL < FLAG_UW < FLAG_AI < CONDITIONAL_PASS < PASS. -/
def favRank (decision : String) : ℕ :=
  if decision = "PASS" then 4
  else if decision = "CONDITIONAL_PASS" then 3
  else if decision = "FLAG/AI" then 2
  else if decision = "FLAG/UW" then 1
  else 0


/-- If both arms of an `ite` of decisions have their confidence in a set,
so does the `ite`. -/
theorem decision_ite_conf_mem {s : Set ℚ} {c : Prop} [Decidable c] {a b : Decision}
    (ha : a.confidence ∈ s) (hb : b.confidence ∈ s) :
    (if c then a else b).confidence ∈ s := by
  split
  · exact ha
  · exact hb

/-- If both arms of an `ite` of decisions have their tag in a list, so
does the `ite`. -/
theorem decision_ite_tag_mem {l : List String} {c : Prop} [Decidable c] {a b : Decision}
    (ha : a.decision ∈ l) (hb : b.decision ∈ l) :
    (if c then a else b).decision ∈ l := by
  split
  · exact ha
  · exact hb

/-- Every decision built by the EB table body of evaluation_module.py
carries a confidence in [0.50, 1.00]. -/
theorem eb_body_confidence_mem (risk_profile : String) (dscr loan_amount : ℚ) (loan_type : String) :
    (EvaluationModule.evaluate_eb_risk_body risk_profile dscr loan_amount loan_type).confidence
      ∈ Set.Icc (0.50 : ℚ) 1.00 := by
  unfold EvaluationModule.evaluate_eb_risk_body
  dsimp only
  repeat' apply decision_ite_conf_mem
  all_goals norm_num [Set.mem_Icc]

/-- Every decision built by the ESB table body of evaluation_module.py
carries a confidence in [0.50, 1.00]. -/
theorem esb_body_confidence_mem (risk_profile : String) (dscr loan_amount : ℚ) (loan_type : String) :
    (EvaluationModule.evaluate_esb_risk_body risk_profile dscr loan_amount loan_type).confidence
      ∈ Set.Icc (0.50 : ℚ) 1.00 := by
  unfold EvaluationModule.evaluate_esb_risk_body
  dsimp only
  repeat' apply decision_ite_conf_mem
  all_goals norm_num [Set.mem_Icc]

/-- Every decision built by the NTB table body of evaluation_module.py
carries a confidence in [0.50, 1.00]. -/
theorem ntb_body_confidence_mem (risk_profile : String) (dscr loan_amount : ℚ) (loan_type : String) :
    (EvaluationModule.evaluate_ntb_risk_body risk_profile dscr loan_amount loan_type).confidence
      ∈ Set.Icc (0.50 : ℚ) 1.00 := by
  unfold EvaluationModule.evaluate_ntb_risk_body
  dsimp only
  repeat' apply decision_ite_conf_mem
  all_goals norm_num [Set.mem_Icc]

/-- Every decision built by the SU table body of evaluation_module.py
carries a confidence in [0.50, 1.00]. -/
theorem su_body_confidence_mem (risk_profile : String) (dscr loan_amount : ℚ) (loan_type : String) :
    (EvaluationModule.evaluate_SU_risk_body risk_profile dscr loan_amount loan_type).confidence
      ∈ Set.Icc (0.50 : ℚ) 1.00 := by
  unfold EvaluationModule.evaluate_SU_risk_body
  dsimp only
  repeat' apply decision_ite_conf_mem
  all_goals norm_num [Set.mem_Icc]

/-- The EB table body only emits the five fixed decision tags. -/
theorem eb_body_tag_mem (risk_profile : String) (dscr loan_amount : ℚ) (loan_type : String) :
    (EvaluationModule.evaluate_eb_risk_body risk_profile dscr loan_amount loan_type).decision
      ∈ ["PASS", "FAIL", "CONDITIONAL_PASS", "FLAG/AI", "FLAG/UW"] := by
  unfold EvaluationModule.evaluate_eb_risk_body
  dsimp only
  repeat' apply decision_ite_tag_mem
  all_goals simp

/-- The ESB table body only emits the five fixed decision tags. -/
theorem esb_body_tag_mem (risk_profile : String) (dscr loan_amount : ℚ) (loan_type : String) :
    (EvaluationModule.evaluate_esb_risk_body risk_profile dscr loan_amount loan_type).decision
      ∈ ["PASS", "FAIL", "CONDITIONAL_PASS", "FLAG/AI", "FLAG/UW"] := by
  unfold EvaluationModule.evaluate_esb_risk_body
  dsimp only
  repeat' apply decision_ite_tag_mem
  all_goals simp

/-- The NTB table body only emits the five fixed decision tags. -/
theorem ntb_body_tag_mem (risk_profile : String) (dscr loan_amount : ℚ) (loan_type : String) :
    (EvaluationModule.evaluate_ntb_risk_body risk_profile dscr loan_amount loan_type).decision
      ∈ ["PASS", "FAIL", "CONDITIONAL_PASS", "FLAG/AI", "FLAG/UW"] := by
  unfold EvaluationModule.evaluate_ntb_risk_body
  dsimp only
  repeat' apply decision_ite_tag_mem
  all_goals simp

/-- The SU table body only emits the five fixed decision tags. -/
theorem su_body_tag_mem (risk_profile : String) (dscr loan_amount : ℚ) (loan_type : String) :
    (EvaluationModule.evaluate_SU_risk_body risk_profile dscr loan_amount loan_type).decision
      ∈ ["PASS", "FAIL", "CONDITIONAL_PASS", "FLAG/AI", "FLAG/UW"] := by
  unfold EvaluationModule.evaluate_SU_risk_body
  dsimp only
  repeat' apply decision_ite_tag_mem
  all_goals simp

/-- Shape of any successful result of evaluation_module.py
evaluate_eb_risk. -/
theorem eb_wrapper_ok_shape (sme_profile risk_profile : String) (dscr loan_amount : ℚ)
    (loan_type : String) (d : Decision)
    (h : EvaluationModule.evaluate_eb_risk sme_profile risk_profile dscr loan_amount loan_type =
      Except.ok d) :
    d.confidence ∈ Set.Icc (0.50 : ℚ) 1.00 ∧
      d.decision ∈ ["PASS", "FAIL", "CONDITIONAL_PASS", "FLAG/AI", "FLAG/UW"] := by
  unfold EvaluationModule.evaluate_eb_risk at h
  split_ifs at h
  simp only [Except.ok.injEq] at h
  subst h
  exact ⟨eb_body_confidence_mem _ _ _ _, eb_body_tag_mem _ _ _ _⟩

/-- Shape of any successful result of evaluation_module.py
evaluate_esb_risk. -/
theorem esb_wrapper_ok_shape (sme_profile risk_profile : String) (dscr loan_amount : ℚ)
    (loan_type : String) (d : Decision)
    (h : EvaluationModule.evaluate_esb_risk sme_profile risk_profile dscr loan_amount loan_type =
      Except.ok d) :
    d.confidence ∈ Set.Icc (0.50 : ℚ) 1.00 ∧
      d.decision ∈ ["PASS", "FAIL", "CONDITIONAL_PASS", "FLAG/AI", "FLAG/UW"] := by
  unfold EvaluationModule.evaluate_esb_risk at h
  split_ifs at h
  simp only [Except.ok.injEq] at h
  subst h
  exact ⟨esb_body_confidence_mem _ _ _ _, esb_body_tag_mem _ _ _ _⟩

/-- Shape of any successful result of evaluation_module.py
evaluate_ntb_risk. -/
theorem ntb_wrapper_ok_shape (sme_profile risk_profile : String) (dscr loan_amount : ℚ)
    (loan_type : String) (d : Decision)
    (h : EvaluationModule.evaluate_ntb_risk sme_profile risk_profile dscr loan_amount loan_type =
      Except.ok d) :
    d.confidence ∈ Set.Icc (0.50 : ℚ) 1.00 ∧
      d.decision ∈ ["PASS", "FAIL", "CONDITIONAL_PASS", "FLAG/AI", "FLAG/UW"] := by
  unfold EvaluationModule.evaluate_ntb_risk at h
  split_ifs at h
  simp only [Except.ok.injEq] at h
  subst h
  exact ⟨ntb_body_confidence_mem _ _ _ _, ntb_body_tag_mem _ _ _ _⟩

/-- Shape of any successful result of evaluation_module.py
evaluate_SU_risk. -/
theorem su_wrapper_ok_shape (sme_profile risk_profile : String) (dscr loan_amount : ℚ)
    (loan_type : String) (d : Decision)
    (h : EvaluationModule.evaluate_SU_risk sme_profile risk_profile dscr loan_amount loan_type =
      Except.ok d) :
    d.confidence ∈ Set.Icc (0.50 : ℚ) 1.00 ∧
      d.decision ∈ ["PASS", "FAIL", "CONDITIONAL_PASS", "FLAG/AI", "FLAG/UW"] := by
  unfold EvaluationModule.evaluate_SU_risk at h
  split_ifs at h
  simp only [Except.ok.injEq] at h
  subst h
  exact ⟨su_body_confidence_mem _ _ _ _, su_body_tag_mem _ _ _ _⟩

/-- Shape of any successful result of evaluation_module.py
evaluate_sme_risk: confidence in [0.50, 1.00] and one of the five tags. -/
theorem em_evaluate_sme_risk_ok_shape (sme_profile risk_profile : String) (dscr loan_amount : ℚ)
    (loan_type : String) (provided_pg min_pg_required : ℚ)
    (requires_debenture has_debenture has_legal_charge is_due_diligence_complete
      is_business_registered : Bool) (d : Decision)
    (h : EvaluationModule.evaluate_sme_risk sme_profile risk_profile dscr loan_amount loan_type
      provided_pg min_pg_required requires_debenture has_debenture has_legal_charge
      is_due_diligence_complete is_business_registered = Except.ok d) :
    d.confidence ∈ Set.Icc (0.50 : ℚ) 1.00 ∧
      d.decision ∈ ["PASS", "FAIL", "CONDITIONAL_PASS", "FLAG/AI", "FLAG/UW"] := by
  unfold EvaluationModule.evaluate_sme_risk at h
  cases hg : EvaluationModule.global_sme_checks dscr loan_amount with
  | some g =>
    rw [hg] at h
    simp only [Except.ok.injEq] at h
    subst h
    unfold EvaluationModule.global_sme_checks at hg
    split_ifs at hg
    · simp only [Option.some.injEq] at hg
      subst hg
      exact ⟨by norm_num [Set.mem_Icc], by simp⟩
    · simp only [Option.some.injEq] at hg
      subst hg
      exact ⟨by norm_num [Set.mem_Icc], by simp⟩
  | none =>
    rw [hg] at h
    dsimp only at h
    split_ifs at h
    all_goals first
      | (simp only [Except.ok.injEq] at h; subst h
         exact ⟨by norm_num [Set.mem_Icc], by simp⟩)
      | exact eb_wrapper_ok_shape _ _ _ _ _ _ h
      | exact esb_wrapper_ok_shape _ _ _ _ _ _ h
      | exact ntb_wrapper_ok_shape _ _ _ _ _ _ h
      | exact su_wrapper_ok_shape _ _ _ _ _ _ h

/-- The confidence adjuster always lands in [0.50, 1.00]: its last step is
`max (min final_conf 1.00) 0.50`. -/
theorem adjust_confidence_mem (base_confidence requested_loan min_loan max_loan : ℚ)
    (risk_profile dscr_level : String) :
    EvaluationModule.adjust_confidence base_confidence requested_loan min_loan max_loan
      risk_profile dscr_level ∈ Set.Icc (0.50 : ℚ) 1.00 := by
  unfold EvaluationModule.adjust_confidence
  dsimp only
  simp only [Set.mem_Icc]
  constructor
  · exact le_max_right _ _
  · exact max_le (min_le_right _ _) (by norm_num)

/-- C1: for every application input, every DecisionOutcome returned by the
evaluation pipeline of evaluation_module.py — evaluate_sme_risk, each of
the four segment evaluators, and the confidence adjuster — has a
confidence value in the closed interval [0.50, 1.00]. -/
theorem claim_C1_confidence_always_in_range :
    (∀ (sme_profile risk_profile : String) (dscr loan_amount : ℚ) (loan_type : String)
        (provided_pg min_pg_required : ℚ)
        (requires_debenture has_debenture has_legal_charge is_due_diligence_complete
          is_business_registered : Bool) (d : Decision),
        EvaluationModule.evaluate_sme_risk sme_profile risk_profile dscr loan_amount loan_type
          provided_pg min_pg_required requires_debenture has_debenture has_legal_charge
          is_due_diligence_complete is_business_registered = Except.ok d →
        d.confidence ∈ Set.Icc (0.50 : ℚ) 1.00) ∧
    (∀ (sme_profile risk_profile : String) (dscr loan_amount : ℚ) (loan_type : String)
        (d : Decision),
        EvaluationModule.evaluate_eb_risk sme_profile risk_profile dscr loan_amount loan_type =
          Except.ok d → d.confidence ∈ Set.Icc (0.50 : ℚ) 1.00) ∧
    (∀ (sme_profile risk_profile : String) (dscr loan_amount : ℚ) (loan_type : String)
        (d : Decision),
        EvaluationModule.evaluate_esb_risk sme_profile risk_profile dscr loan_amount loan_type =
          Except.ok d → d.confidence ∈ Set.Icc (0.50 : ℚ) 1.00) ∧
    (∀ (sme_profile risk_profile : String) (dscr loan_amount : ℚ) (loan_type : String)
        (d : Decision),
        EvaluationModule.evaluate_ntb_risk sme_profile risk_profile dscr loan_amount loan_type =
          Except.ok d → d.confidence ∈ Set.Icc (0.50 : ℚ) 1.00) ∧
    (∀ (sme_profile risk_profile : String) (dscr loan_amount : ℚ) (loan_type : String)
        (d : Decision),
        EvaluationModule.evaluate_SU_risk sme_profile risk_profile dscr loan_amount loan_type =
          Except.ok d → d.confidence ∈ Set.Icc (0.50 : ℚ) 1.00) ∧
    (∀ (base_confidence requested_loan min_loan max_loan : ℚ) (risk_profile dscr_level : String),
        EvaluationModule.adjust_confidence base_confidence requested_loan min_loan max_loan
          risk_profile dscr_level ∈ Set.Icc (0.50 : ℚ) 1.00) := by
  refine ⟨?_, ?_, ?_, ?_, ?_, ?_⟩
  · intro sme risk dscr amount lt pg mpg rd hd hlc dd br d h
    exact (em_evaluate_sme_risk_ok_shape sme risk dscr amount lt pg mpg rd hd hlc dd br d h).1
  · intro sme risk dscr amount lt d h
    exact (eb_wrapper_ok_shape sme risk dscr amount lt d h).1
  · intro sme risk dscr amount lt d h
    exact (esb_wrapper_ok_shape sme risk dscr amount lt d h).1
  · intro sme risk dscr amount lt d h
    exact (ntb_wrapper_ok_shape sme risk dscr amount lt d h).1
  · intro sme risk dscr amount lt d h
    exact (su_wrapper_ok_shape sme risk dscr amount lt d h).1
  · intro b rl ml xl rp lvl
    exact adjust_confidence_mem b rl ml xl rp lvl

/-- Witness for C1 at a concrete input: the pipeline on
(EB, T1, dscr = 1, amount = 50000) returns the global DSCR FAIL with
confidence 0.99 ∈ [0.50, 1.00]. -/
theorem claim_C1_witness :
    (⟨"FAIL", 0.99, "DSCR <125%. Loan declined."⟩ : Decision).confidence
      ∈ Set.Icc (0.50 : ℚ) 1.00 :=
  claim_C1_confidence_always_in_range.1 "EB" "T1" 1 50000 "unsecured" 1 0.2 false false
    true true true ⟨"FAIL", 0.99, "DSCR <125%. Loan declined."⟩
    (by norm_num [EvaluationModule.evaluate_sme_risk, EvaluationModule.global_sme_checks])

/-- main.py's EB table only emits tags from the seven-tag superset. -/
theorem main_eb_tag_mem (risk_profile : String) (dscr loan_amount : ℚ) (loan_type : String) :
    (Main.evaluate_eb_risk risk_profile dscr loan_amount loan_type).decision
      ∈ ["PASS", "FAIL", "CONDITIONAL_PASS", "FLAG/AI", "FLAG/UW", "REQUIREMENT",
         "CONDITIONAL APPROVAL"] := by
  unfold Main.evaluate_eb_risk
  repeat' apply decision_ite_tag_mem
  all_goals simp

/-- main.py's ESB table only emits tags from the seven-tag superset. -/
theorem main_esb_tag_mem (risk_profile : String) (dscr loan_amount : ℚ) (loan_type : String) :
    (Main.evaluate_esb_risk risk_profile dscr loan_amount loan_type).decision
      ∈ ["PASS", "FAIL", "CONDITIONAL_PASS", "FLAG/AI", "FLAG/UW", "REQUIREMENT",
         "CONDITIONAL APPROVAL"] := by
  unfold Main.evaluate_esb_risk
  repeat' apply decision_ite_tag_mem
  all_goals simp

/-- main.py's NTB table only emits tags from the seven-tag superset. -/
theorem main_ntb_tag_mem (risk_profile : String) (dscr loan_amount : ℚ) (loan_type : String) :
    (Main.evaluate_ntb_risk risk_profile dscr loan_amount loan_type).decision
      ∈ ["PASS", "FAIL", "CONDITIONAL_PASS", "FLAG/AI", "FLAG/UW", "REQUIREMENT",
         "CONDITIONAL APPROVAL"] := by
  unfold Main.evaluate_ntb_risk
  repeat' apply decision_ite_tag_mem
  all_goals simp

/-- main.py's SU table only emits tags from the seven-tag superset. -/
theorem main_su_tag_mem (risk_profile : String) (dscr loan_amount : ℚ) (loan_type : String) :
    (Main.evaluate_su_risk risk_profile dscr loan_amount loan_type).decision
      ∈ ["PASS", "FAIL", "CONDITIONAL_PASS", "FLAG/AI", "FLAG/UW", "REQUIREMENT",
         "CONDITIONAL APPROVAL"] := by
  unfold Main.evaluate_su_risk
  repeat' apply decision_ite_tag_mem
  all_goals simp

/-- main.py evaluate_sme_risk only emits tags from the seven-tag superset. -/
theorem main_evaluate_sme_risk_tag_mem (sme_profile risk_profile : String)
    (dscr loan_amount : ℚ) (loan_type : String) (provided_pg min_pg_required : ℚ)
    (requires_debenture has_debenture has_legal_charge is_due_diligence_complete
      is_business_registered : Bool) :
    (Main.evaluate_sme_risk sme_profile risk_profile dscr loan_amount loan_type provided_pg
        min_pg_required requires_debenture has_debenture has_legal_charge
        is_due_diligence_complete is_business_registered).decision
      ∈ ["PASS", "FAIL", "CONDITIONAL_PASS", "FLAG/AI", "FLAG/UW", "REQUIREMENT",
         "CONDITIONAL APPROVAL"] := by
  unfold Main.evaluate_sme_risk
  cases hg : Main.global_sme_checks dscr loan_amount with
  | some g =>
    unfold Main.global_sme_checks at hg
    split_ifs at hg
    all_goals (simp only [Option.some.injEq] at hg; subst hg; simp)
  | none =>
    dsimp only
    repeat' apply decision_ite_tag_mem
    all_goals simp

/-- C2 (counterexample): main.py's evaluate_sme_risk (the
/evaluate/sme-risk endpoint) returns the decision tag "REQUIREMENT" — not
one of the five documented tags — for an EB application with
dscr = 150 (this variant's whole-percentage DSCR), amount = 200000,
unsecured, with the endpoint's default resolver flags. -/
theorem claim_C2_counterexample :
    (Main.evaluate_sme_risk "EB" "T1" 150 200000 "unsecured" 1 0.20 false false true true
        true).decision = "REQUIREMENT" ∧
      "REQUIREMENT" ∉ ["PASS", "FAIL", "CONDITIONAL_PASS", "FLAG/AI", "FLAG/UW"] := by
  constructor
  · norm_num +decide [Main.evaluate_sme_risk, Main.global_sme_checks, Main.evaluate_eb_risk]
  · decide

/-- C2 (amended): the evaluation_module.py entry point returns only the
five tags PASS, FAIL, CONDITIONAL_PASS, FLAG/AI, FLAG/UW; the main.py
entry point can additionally return REQUIREMENT (its rule-table fallback)
and CONDITIONAL APPROVAL (its resolver steps), and never anything outside
those seven. -/
theorem claim_C2_amended_decision_tags :
    (∀ (sme_profile risk_profile : String) (dscr loan_amount : ℚ) (loan_type : String)
        (provided_pg min_pg_required : ℚ)
        (requires_debenture has_debenture has_legal_charge is_due_diligence_complete
          is_business_registered : Bool) (d : Decision),
        EvaluationModule.evaluate_sme_risk sme_profile risk_profile dscr loan_amount loan_type
          provided_pg min_pg_required requires_debenture has_debenture has_legal_charge
          is_due_diligence_complete is_business_registered = Except.ok d →
        d.decision ∈ ["PASS", "FAIL", "CONDITIONAL_PASS", "FLAG/AI", "FLAG/UW"]) ∧
    (∀ (sme_profile risk_profile : String) (dscr loan_amount : ℚ) (loan_type : String)
        (provided_pg min_pg_required : ℚ)
        (requires_debenture has_debenture has_legal_charge is_due_diligence_complete
          is_business_registered : Bool),
        (Main.evaluate_sme_risk sme_profile risk_profile dscr loan_amount loan_type provided_pg
            min_pg_required requires_debenture has_debenture has_legal_charge
            is_due_diligence_complete is_business_registered).decision
          ∈ ["PASS", "FAIL", "CONDITIONAL_PASS", "FLAG/AI", "FLAG/UW", "REQUIREMENT",
             "CONDITIONAL APPROVAL"]) := by
  constructor
  · intro sme risk dscr amount lt pg mpg rd hd hlc dd br d h
    exact (em_evaluate_sme_risk_ok_shape sme risk dscr amount lt pg mpg rd hd hlc dd br d h).2
  · intro sme risk dscr amount lt pg mpg rd hd hlc dd br
    exact main_evaluate_sme_risk_tag_mem sme risk dscr amount lt pg mpg rd hd hlc dd br

/-- Witness for C2's amended claim at a concrete input: the
evaluation_module pipeline on (EB, T1, dscr = 1, amount = 50000) returns
the FAIL tag, which is among the five. -/
theorem claim_C2_witness :
    (⟨"FAIL", 0.99, "DSCR <125%. Loan declined."⟩ : Decision).decision
      ∈ ["PASS", "FAIL", "CONDITIONAL_PASS", "FLAG/AI", "FLAG/UW"] :=
  claim_C2_amended_decision_tags.1 "EB" "T1" 1 50000 "unsecured" 1 0.2 false false
    true true true ⟨"FAIL", 0.99, "DSCR <125%. Loan declined."⟩
    (by norm_num [EvaluationModule.evaluate_sme_risk, EvaluationModule.global_sme_checks])

/-- C3: logic.py's EB rule table is not total. On (EB, T3, dscr = 1.5,
amount = 50000, unsecured) — within the DSCR and amount bounds — no rule
matches and there is no fallback, so evaluate_eb_risk returns Python None,
and evaluate_application then raises TypeError subscripting it. -/
theorem claim_C3_logic_rule_table_not_total :
    Logic.evaluate_eb_risk "EB" "T3" 1.5 50000 "unsecured" = Except.ok none ∧
    Logic.evaluate_application "EB" "T3" 1.5 50000 "unsecured" "Construction" [] =
      Except.error PyErr.typeError := by
  constructor
  · norm_num +decide [Logic.evaluate_eb_risk, Logic.evaluate_eb_risk_body, Config.MIN_DSCR,
      pyLower]
  · norm_num +decide [Logic.evaluate_application, Logic.evaluate_eb_risk,
      Logic.evaluate_eb_risk_body, Config.MIN_DSCR, Config.MIN_LOAN_AMOUNT, pyLower]
    rfl

/-- C5: with every earlier gate satisfied and an industry sector that is
neither accepted nor disallowed, config.py's global_sme_checks raises
KeyError instead of returning a FLAG/UW outcome: it subscripts
DECISIONS["FLAG/UW"], but the dict's key is "FLAG_UW" (whose value is the
string "FLAG/UW"). -/
theorem claim_C5_unrecognized_industry_raises_keyerror :
    Config.global_sme_checks 1.5 50000 "T1" "EB" "Basket Weaving" =
        Except.error PyErr.keyError ∧
      Config.DECISIONS.lookup "FLAG/UW" = none ∧
      Config.DECISIONS.lookup "FLAG_UW" = some "FLAG/UW" := by
  refine ⟨?_, by decide, by decide⟩
  unfold Config.global_sme_checks
  rw [if_neg (by norm_num [Config.MIN_DSCR]), if_neg (by norm_num [Config.MIN_LOAN_AMOUNT]),
    if_neg (by decide), if_neg (by decide), if_neg (by decide), if_pos (by decide)]
  rfl

/-- C6 (counterexample): determine_pg_percentage does not clamp: at
overallRisk = 2.5 it returns 1.4, outside [0.20, 1.00]. -/
theorem claim_C6_counterexample :
    Config.determine_pg_percentage 2.5 = 1.4 ∧
      ¬ Config.determine_pg_percentage 2.5 ≤ 1.00 := by
  norm_num [Config.determine_pg_percentage]

/-- C6 (amended): determine_pg_percentage performs unclamped linear
interpolation — it equals 0.20 + (overallRisk − 1) · 0.80 for every input,
and its result lies in [0.20, 1.00] exactly when overallRisk lies in
[1.0, 2.0]; out-of-range risk is extrapolated, not clamped and not an
error. -/
theorem claim_C6_amended_unclamped_interpolation (overall_risk : ℚ) :
    Config.determine_pg_percentage overall_risk = 0.20 + (overall_risk - 1) * 0.80 ∧
      (Config.determine_pg_percentage overall_risk ∈ Set.Icc (0.20 : ℚ) 1.00 ↔
        overall_risk ∈ Set.Icc (1 : ℚ) 2) := by
  have h : Config.determine_pg_percentage overall_risk = 0.20 + (overall_risk - 1) * 0.80 := by
    unfold Config.determine_pg_percentage
    dsimp only
    ring
  refine ⟨h, ?_⟩
  rw [h]
  simp only [Set.mem_Icc]
  constructor
  · rintro ⟨h1, h2⟩
    constructor <;> linarith
  · rintro ⟨h1, h2⟩
    constructor <;> linarith

/-- C7: the PG interpolation anchors hold exactly:
determine_pg_percentage 1.0 = 0.20, determine_pg_percentage 2.0 = 1.00,
and determine_pg_percentage 1.5 = 0.60 (the midpoint). -/
theorem claim_C7_pg_interpolation_anchors :
    Config.determine_pg_percentage 1.0 = 0.20 ∧
      Config.determine_pg_percentage 2.0 = 1.00 ∧
      Config.determine_pg_percentage 1.5 = 0.60 := by
  refine ⟨?_, ?_, ?_⟩ <;> norm_num [Config.determine_pg_percentage]

/-- C9: when the generator fails on every one of the three attempts,
evaluation_module.py's generate_and_verify_narrative executes
`return narrative` with the local never assigned and raises
UnboundLocalError to its caller; narrative.py's copy of the same loop
initializes `narrative = ""` and returns normally on the same oracle
behaviour. -/
theorem claim_C9_narrative_loop_raises_on_generator_failure :
    NarrativeLoop.generate_and_verify_narrative_em (fun _ => Except.error ())
        (fun _ _ => Except.ok "No contradictions found.") = Except.error PyErr.nameError ∧
      NarrativeLoop.generate_and_verify_narrative_nr (fun _ => Except.error ())
        (fun _ _ => Except.ok "No contradictions found.") = Except.ok "" := by
  constructor <;> rfl

/-- C10: any application with loanAmount exactly 25000 and dscr ≥ 1.25 is
declined by the global minimum-amount check (threshold 25001) regardless
of segment, tier, security type or resolver flags — even though 25000 is
the configured per-segment minimum loan amount for EB, ESB and NTB, so an
application at the published segment minimum never reaches a rule table. -/
theorem claim_C10_min_amount_gate_excludes_segment_minimum :
    (∀ (sme_profile risk_profile : String) (dscr : ℚ) (loan_type : String)
        (provided_pg min_pg_required : ℚ)
        (requires_debenture has_debenture has_legal_charge is_due_diligence_complete
          is_business_registered : Bool),
        1.25 ≤ dscr →
        EvaluationModule.evaluate_sme_risk sme_profile risk_profile dscr 25000 loan_type
          provided_pg min_pg_required requires_debenture has_debenture has_legal_charge
          is_due_diligence_complete is_business_registered =
          Except.ok ⟨"FAIL", 0.99,
            "Loan amount below £25,001. Does not meet minimum threshold."⟩) ∧
    Config.MIN_LOAN_AMOUNT = 25001 ∧
    Config.SME_PROFILES_EB.loan_unsecured.min = 25000 ∧
    Config.SME_PROFILES_EB.loan_secured.min = 25000 ∧
    Config.SME_PROFILES_ESB.loan_unsecured.min = 25000 ∧
    Config.SME_PROFILES_ESB.loan_secured.min = 25000 ∧
    Config.SME_PROFILES_NTB.loan_unsecured.min = 25000 ∧
    Config.SME_PROFILES_NTB.loan_secured.min = 25000 := by
  refine ⟨?_, rfl, rfl, rfl, rfl, rfl, rfl, rfl⟩
  intro sme risk dscr lt pg mpg rd hd hlc dd br h
  unfold EvaluationModule.evaluate_sme_risk EvaluationModule.global_sme_checks
  rw [if_neg (not_lt.mpr h), if_pos (by norm_num : (25000 : ℚ) < 25001)]

/-- Witness for C10 at a concrete input (EB, T1, dscr exactly 1.25). -/
theorem claim_C10_witness :
    EvaluationModule.evaluate_sme_risk "EB" "T1" 1.25 25000 "unsecured" 1 0.2 false false true
        true true =
      Except.ok ⟨"FAIL", 0.99, "Loan amount below £25,001. Does not meet minimum threshold."⟩ :=
  claim_C10_min_amount_gate_excludes_segment_minimum.1 "EB" "T1" 1.25 "unsecured" 1 0.2 false
    false true true true le_rfl

/-- Bind on a successful Except reduces to the continuation. -/
theorem except_ok_bind {ε α β : Type} (a : α) (f : α → Except ε β) :
    (Except.ok a >>= f) = f a := rfl

/-- Bind on a failed Except short-circuits. -/
theorem except_error_bind {ε α β : Type} (e : ε) (f : α → Except ε β) :
    ((Except.error e : Except ε α) >>= f) = Except.error e := rfl

/-- C4 (counterexample): logic.py's evaluate_application attaches a
required-PG value to a FAIL decision: for EB/T1, dscr = 1.3, a secured
request of 300000 exceeds the 250000 cap and FAILs, yet the outcome
carries required_pg = 0.456 (and overall_risk), contradicting the claim
that FAIL outcomes never carry a PG requirement. -/
theorem claim_C4_counterexample :
    (Logic.evaluate_application "EB" "T1" 1.3 300000 "secured" "Construction" []).toOption.map
        Logic.AppOutcome.decision = some "FAIL" ∧
      (Logic.evaluate_application "EB" "T1" 1.3 300000 "secured" "Construction" []).toOption.map
        Logic.AppOutcome.required_pg = some (some 0.456) := by
  have hlevel : Logic.get_dscr_level (13 / 10 : ℚ) = "low" := by
    norm_num [Logic.get_dscr_level]
  have hover : Config.calculate_overall_risk "EB" "low" "T1" "Construction" = 1.32 := by
    norm_num [Config.calculate_overall_risk,
      show Config.SME_RISK_SCORES.lookup "EB" = some 1.0 from rfl,
      show Config.DSCR_RISK_SCORES.lookup "low" = some 2.0 from rfl,
      show Config.CREDIT_RISK_SCORES.lookup "T1" = some 1.0 from rfl,
      show Config.INDUSTRY_RISK_SCORES.lookup "Construction" = some 1.0 from rfl,
      Config.WEIGHT_SME, Config.WEIGHT_DSCR, Config.WEIGHT_CREDIT, Config.WEIGHT_INDUSTRY]
  constructor <;>
    norm_num +decide [Logic.evaluate_application, Logic.evaluate_eb_risk,
      Logic.evaluate_eb_risk_body, Logic.ofDecision, hlevel, hover,
      Config.MIN_DSCR, Config.MIN_LOAN_AMOUNT, Config.determine_pg_percentage, pyLower,
      except_ok_bind, Except.toOption]

/-- C4 (amended): an outcome of logic.py evaluate_application whose
decision is FAIL never carries a missing-documents map (the map is
attached only by finalize_conditional_pass, which always sets the decision
to CONDITIONAL_PASS); FAIL outcomes from the segment evaluators do,
however, carry overall_risk and required_pg, per the counterexample. -/
theorem claim_C4_amended_fail_never_carries_missing_documents
    (sme_profile risk_profile : String) (dscr loan_amount : ℚ)
    (loan_type industry_sector : String) (provided_docs : List String)
    (o : Logic.AppOutcome)
    (h : Logic.evaluate_application sme_profile risk_profile dscr loan_amount loan_type
      industry_sector provided_docs = Except.ok o)
    (hfail : o.decision = "FAIL") : o.missing_documents = none := by
  unfold Logic.evaluate_application at h
  split_ifs at h with h1 h2 h3 h4 h5
  · simp only [Except.ok.injEq] at h; subst h; rfl
  · simp only [Except.ok.injEq] at h; subst h; rfl
  · simp only [Except.ok.injEq] at h; subst h; rfl
  · subst h4
    rw [show Logic.evaluate_eb_risk "EB" risk_profile dscr loan_amount loan_type =
        Except.ok (Logic.evaluate_eb_risk_body risk_profile dscr loan_amount loan_type)
        from rfl, except_ok_bind] at h
    dsimp only at h
    cases hb : Logic.evaluate_eb_risk_body risk_profile dscr loan_amount loan_type with
    | none => rw [hb] at h; exact absurd h (by simp)
    | some d =>
      rw [hb] at h
      simp only [Except.ok.injEq] at h
      subst h
      by_cases hd : d.decision = "PROGRESS"
      · rw [if_pos hd] at hfail
        simp only [Logic.finalize_conditional_pass] at hfail
        exact absurd hfail (by decide)
      · simp only [if_neg hd, Logic.ofDecision]
  · subst h5
    rw [show Logic.evaluate_esb_risk "ESB" risk_profile dscr loan_amount loan_type =
        Except.ok (Logic.evaluate_esb_risk_body risk_profile dscr loan_amount loan_type)
        from rfl, except_ok_bind] at h
    dsimp only at h
    cases hb : Logic.evaluate_esb_risk_body risk_profile dscr loan_amount loan_type with
    | none => rw [hb] at h; exact absurd h (by simp)
    | some d =>
      rw [hb] at h
      simp only [Except.ok.injEq] at h
      subst h
      by_cases hd : d.decision = "PROGRESS"
      · rw [if_pos hd] at hfail
        simp only [Logic.finalize_conditional_pass] at hfail
        exact absurd hfail (by decide)
      · simp only [if_neg hd, Logic.ofDecision]
  · have hs : sme_profile = "NTB" := by tauto
    subst hs
    rw [show Logic.evaluate_ntb_risk "NTB" risk_profile dscr loan_amount loan_type =
        Except.ok (Logic.evaluate_ntb_risk_body risk_profile dscr loan_amount loan_type)
        from rfl, except_ok_bind] at h
    dsimp only at h
    cases hb : Logic.evaluate_ntb_risk_body risk_profile dscr loan_amount loan_type with
    | none => rw [hb] at h; exact absurd h (by simp)
    | some d =>
      rw [hb] at h
      simp only [Except.ok.injEq] at h
      subst h
      by_cases hd : d.decision = "PROGRESS"
      · rw [if_pos hd] at hfail
        simp only [Logic.finalize_conditional_pass] at hfail
        exact absurd hfail (by decide)
      · simp only [if_neg hd, Logic.ofDecision]

/-- Witness for C4's amended claim at a concrete input: the global DSCR
FAIL outcome on (EB, T1, dscr = 1, amount = 30000) carries no
missing-documents map. -/
theorem claim_C4_witness :
    (Logic.ofDecision ⟨"FAIL", 0.99,
      "DSCR of " ++ toString (1 : ℚ) ++ " is below the minimum threshold of " ++
        toString Config.MIN_DSCR ++ ". Loan declined."⟩).missing_documents = none :=
  claim_C4_amended_fail_never_carries_missing_documents "EB" "T1" 1 30000 "unsecured"
    "Construction" []
    (Logic.ofDecision ⟨"FAIL", 0.99,
      "DSCR of " ++ toString (1 : ℚ) ++ " is below the minimum threshold of " ++
        toString Config.MIN_DSCR ++ ". Loan declined."⟩)
    (by norm_num [Logic.evaluate_application, Config.MIN_DSCR]) rfl

/-- If both arms of an `ite` of decisions avoid a tag, so does the `ite`. -/
theorem decision_ite_ne {s : String} {c : Prop} [Decidable c] {a b : Decision}
    (ha : a.decision ≠ s) (hb : b.decision ≠ s) : (if c then a else b).decision ≠ s := by
  split
  · exact ha
  · exact hb

/-- Variant of `decision_ite_ne` that hands the branch condition to the
then-arm obligation. -/
theorem decision_ite_ne_cond {s : String} {c : Prop} [Decidable c] {a b : Decision}
    (ha : c → a.decision ≠ s) (hb : b.decision ≠ s) : (if c then a else b).decision ≠ s := by
  split
  · next hc => exact ha hc
  · exact hb

/-- In the EB table body, FAIL arises only from the amount hard stops,
which do not depend on DSCR: a non-FAIL result stays non-FAIL at any
other DSCR. -/
theorem eb_body_noFail_mono (risk_profile : String) (dscr dscr' loan_amount : ℚ)
    (loan_type : String)
    (h : (EvaluationModule.evaluate_eb_risk_body risk_profile dscr loan_amount
      loan_type).decision ≠ "FAIL") :
    (EvaluationModule.evaluate_eb_risk_body risk_profile dscr' loan_amount
      loan_type).decision ≠ "FAIL" := by
  unfold EvaluationModule.evaluate_eb_risk_body at h ⊢
  dsimp only at h ⊢
  by_cases hmin : loan_amount <
      (if pyLower loan_type = "secured" then Config.SME_PROFILES_EB.loan_secured.min
        else Config.SME_PROFILES_EB.loan_unsecured.min)
  · rw [if_pos hmin] at h
    exact absurd rfl h
  by_cases hmax : loan_amount >
      (if pyLower loan_type = "secured" then Config.SME_PROFILES_EB.loan_secured.max
        else Config.SME_PROFILES_EB.loan_unsecured.max)
  · rw [if_neg hmin, if_pos hmax] at h
    exact absurd rfl h
  rw [if_neg hmin, if_neg hmax]
  repeat' apply decision_ite_ne
  all_goals simp

/-- In the ESB table body, FAIL arises only from the amount hard stops. -/
theorem esb_body_noFail_mono (risk_profile : String) (dscr dscr' loan_amount : ℚ)
    (loan_type : String)
    (h : (EvaluationModule.evaluate_esb_risk_body risk_profile dscr loan_amount
      loan_type).decision ≠ "FAIL") :
    (EvaluationModule.evaluate_esb_risk_body risk_profile dscr' loan_amount
      loan_type).decision ≠ "FAIL" := by
  unfold EvaluationModule.evaluate_esb_risk_body at h ⊢
  dsimp only at h ⊢
  by_cases hmin : loan_amount <
      (if pyLower loan_type = "secured" then Config.SME_PROFILES_ESB.loan_secured.min
        else Config.SME_PROFILES_ESB.loan_unsecured.min)
  · rw [if_pos hmin] at h
    exact absurd rfl h
  by_cases hmax : loan_amount >
      (if pyLower loan_type = "secured" then Config.SME_PROFILES_ESB.loan_secured.max
        else Config.SME_PROFILES_ESB.loan_unsecured.max)
  · rw [if_neg hmin, if_pos hmax] at h
    exact absurd rfl h
  rw [if_neg hmin, if_neg hmax]
  repeat' apply decision_ite_ne
  all_goals simp

/-- In the NTB table body, FAIL arises only from the amount hard stops. -/
theorem ntb_body_noFail_mono (risk_profile : String) (dscr dscr' loan_amount : ℚ)
    (loan_type : String)
    (h : (EvaluationModule.evaluate_ntb_risk_body risk_profile dscr loan_amount
      loan_type).decision ≠ "FAIL") :
    (EvaluationModule.evaluate_ntb_risk_body risk_profile dscr' loan_amount
      loan_type).decision ≠ "FAIL" := by
  unfold EvaluationModule.evaluate_ntb_risk_body at h ⊢
  dsimp only at h ⊢
  by_cases hmin : loan_amount <
      (if pyLower loan_type = "secured" then Config.SME_PROFILES_NTB.loan_secured.min
        else Config.SME_PROFILES_NTB.loan_unsecured.min)
  · rw [if_pos hmin] at h
    exact absurd rfl h
  by_cases hmax : loan_amount >
      (if pyLower loan_type = "secured" then Config.SME_PROFILES_NTB.loan_secured.max
        else Config.SME_PROFILES_NTB.loan_unsecured.max)
  · rw [if_neg hmin, if_pos hmax] at h
    exact absurd rfl h
  rw [if_neg hmin, if_neg hmax]
  repeat' apply decision_ite_ne
  all_goals simp

/-- In the SU table body, raising DSCR (all else fixed) never turns a
non-FAIL decision into FAIL: the in-table FAIL rows all require
dscr < 1.35, and the amount hard stops do not depend on DSCR. -/
theorem su_body_noFail_mono (risk_profile : String) (dscr dscr' loan_amount : ℚ)
    (loan_type : String) (hle : dscr ≤ dscr')
    (h : (EvaluationModule.evaluate_SU_risk_body risk_profile dscr loan_amount
      loan_type).decision ≠ "FAIL") :
    (EvaluationModule.evaluate_SU_risk_body risk_profile dscr' loan_amount
      loan_type).decision ≠ "FAIL" := by
  unfold EvaluationModule.evaluate_SU_risk_body at h ⊢
  dsimp only at h ⊢
  by_cases hmin : loan_amount <
      (if pyLower loan_type = "secured" then Config.SME_PROFILES_SU.loan_secured.min
        else Config.SME_PROFILES_SU.loan_unsecured.min)
  · rw [if_pos hmin] at h
    exact absurd rfl h
  by_cases hmax : loan_amount >
      (if pyLower loan_type = "secured" then Config.SME_PROFILES_SU.loan_secured.max
        else Config.SME_PROFILES_SU.loan_unsecured.max)
  · rw [if_neg hmin, if_pos hmax] at h
    exact absurd rfl h
  rw [if_neg hmin, if_neg hmax] at h ⊢
  repeat' apply decision_ite_ne_cond
  · intro _; simp
  · intro _; simp
  · intro _; simp
  · intro _; simp
  · intro _; simp
  · intro _; simp
  · rintro ⟨hrisk, hdscB, hlt, hamt⟩
    have hdsc : dscr < 1.35 := lt_of_le_of_lt hle hdscB
    rw [if_neg (by rintro ⟨-, hgt, -⟩; linarith),
        if_neg (by rintro ⟨-, hgt, -⟩; linarith),
        if_neg (by rintro ⟨-, hgt, -⟩; linarith),
        if_neg (by rintro ⟨-, hgt, -⟩; linarith),
        if_neg (by rintro ⟨ht, -⟩; rw [hrisk] at ht; exact absurd ht (by decide)),
        if_neg (by rintro ⟨ht, -⟩; rw [hrisk] at ht; exact absurd ht (by decide)),
        if_pos ⟨hrisk, hdsc, hlt, hamt⟩] at h
    exact absurd rfl h
  · rintro ⟨hrisk, hdscB, hlt, hamt⟩
    have hdsc : dscr < 1.35 := lt_of_le_of_lt hle hdscB
    rw [if_neg (by rintro ⟨-, hgt, -⟩; linarith),
        if_neg (by rintro ⟨-, hgt, -⟩; linarith),
        if_neg (by rintro ⟨-, hgt, -⟩; linarith),
        if_neg (by rintro ⟨-, hgt, -⟩; linarith),
        if_neg (by rintro ⟨ht, -⟩; rw [hrisk] at ht; exact absurd ht (by decide)),
        if_neg (by rintro ⟨ht, -⟩; rw [hrisk] at ht; exact absurd ht (by decide)),
        if_neg (by rintro ⟨-, -, hu, -⟩; rw [hlt] at hu; exact absurd hu (by decide)),
        if_pos ⟨hrisk, hdsc, hlt, hamt⟩] at h
    exact absurd rfl h
  · rintro ⟨hrisk, hdscB, hlt, hamt⟩
    have hdsc : dscr < 1.35 := lt_of_le_of_lt hle hdscB
    rw [if_neg (by rintro ⟨-, hgt, -⟩; linarith),
        if_neg (by rintro ⟨-, hgt, -⟩; linarith),
        if_neg (by rintro ⟨-, hgt, -⟩; linarith),
        if_neg (by rintro ⟨-, hgt, -⟩; linarith),
        if_neg (by rintro ⟨ht, -⟩; rw [hrisk] at ht; exact absurd ht (by decide)),
        if_neg (by rintro ⟨ht, -⟩; rw [hrisk] at ht; exact absurd ht (by decide)),
        if_neg (by rintro ⟨ht, -⟩; rw [hrisk] at ht; exact absurd ht (by decide)),
        if_neg (by rintro ⟨ht, -⟩; rw [hrisk] at ht; exact absurd ht (by decide)),
        if_pos ⟨hrisk, hdsc, hlt, hamt⟩] at h
    exact absurd rfl h
  · rintro ⟨hrisk, hdscB, hlt, hamt⟩
    have hdsc : dscr < 1.35 := lt_of_le_of_lt hle hdscB
    rw [if_neg (by rintro ⟨-, hgt, -⟩; linarith),
        if_neg (by rintro ⟨-, hgt, -⟩; linarith),
        if_neg (by rintro ⟨-, hgt, -⟩; linarith),
        if_neg (by rintro ⟨-, hgt, -⟩; linarith),
        if_neg (by rintro ⟨ht, -⟩; rw [hrisk] at ht; exact absurd ht (by decide)),
        if_neg (by rintro ⟨ht, -⟩; rw [hrisk] at ht; exact absurd ht (by decide)),
        if_neg (by rintro ⟨ht, -⟩; rw [hrisk] at ht; exact absurd ht (by decide)),
        if_neg (by rintro ⟨ht, -⟩; rw [hrisk] at ht; exact absurd ht (by decide)),
        if_neg (by rintro ⟨-, -, hu, -⟩; rw [hlt] at hu; exact absurd hu (by decide)),
        if_pos ⟨hrisk, hdsc, hlt, hamt⟩] at h
    exact absurd rfl h
  · simp

/-- C8 (counterexample): DSCR monotonicity fails. In evaluation_module.py's
ESB evaluator with T3, unsecured, amount 45000, raising dscr from 1.30 to
1.40 moves the decision from CONDITIONAL_PASS (the fallback: the T3
125–135% row caps unsecured at 40000) to FLAG/AI (the 135–150% row caps at
50000) — a strictly less favourable category under
FAIL < FLAG_UW < FLAG_AI < CONDITIONAL_PASS < PASS. -/
theorem claim_C8_counterexample :
    (EvaluationModule.evaluate_esb_risk "ESB" "T3" 1.3 45000 "unsecured").toOption.map
        Decision.decision = some "CONDITIONAL_PASS" ∧
      (EvaluationModule.evaluate_esb_risk "ESB" "T3" 1.4 45000 "unsecured").toOption.map
        Decision.decision = some "FLAG/AI" ∧
      (1.3 : ℚ) < 1.4 ∧
      favRank "FLAG/AI" < favRank "CONDITIONAL_PASS" := by
  refine ⟨?_, ?_, by norm_num, by decide⟩ <;>
    norm_num +decide [EvaluationModule.evaluate_esb_risk,
      EvaluationModule.evaluate_esb_risk_body, pyLower, Except.toOption]

/-- C8 (amended): increasing dscr with all else fixed can move the
decision between the non-FAIL categories in either direction (see the
counterexample), but it never moves the outcome into FAIL: for each
evaluation_module.py segment evaluator, a non-FAIL decision at some dscr
stays non-FAIL at every higher dscr. -/
theorem claim_C8_amended_noFail_dscr_monotone :
    (∀ (sme_profile risk_profile : String) (dscr dscr' loan_amount : ℚ) (loan_type : String)
        (d d' : Decision),
        dscr ≤ dscr' →
        EvaluationModule.evaluate_eb_risk sme_profile risk_profile dscr loan_amount loan_type =
          Except.ok d →
        EvaluationModule.evaluate_eb_risk sme_profile risk_profile dscr' loan_amount loan_type =
          Except.ok d' →
        d.decision ≠ "FAIL" → d'.decision ≠ "FAIL") ∧
    (∀ (sme_profile risk_profile : String) (dscr dscr' loan_amount : ℚ) (loan_type : String)
        (d d' : Decision),
        dscr ≤ dscr' →
        EvaluationModule.evaluate_esb_risk sme_profile risk_profile dscr loan_amount loan_type =
          Except.ok d →
        EvaluationModule.evaluate_esb_risk sme_profile risk_profile dscr' loan_amount loan_type =
          Except.ok d' →
        d.decision ≠ "FAIL" → d'.decision ≠ "FAIL") ∧
    (∀ (sme_profile risk_profile : String) (dscr dscr' loan_amount : ℚ) (loan_type : String)
        (d d' : Decision),
        dscr ≤ dscr' →
        EvaluationModule.evaluate_ntb_risk sme_profile risk_profile dscr loan_amount loan_type =
          Except.ok d →
        EvaluationModule.evaluate_ntb_risk sme_profile risk_profile dscr' loan_amount loan_type =
          Except.ok d' →
        d.decision ≠ "FAIL" → d'.decision ≠ "FAIL") ∧
    (∀ (sme_profile risk_profile : String) (dscr dscr' loan_amount : ℚ) (loan_type : String)
        (d d' : Decision),
        dscr ≤ dscr' →
        EvaluationModule.evaluate_SU_risk sme_profile risk_profile dscr loan_amount loan_type =
          Except.ok d →
        EvaluationModule.evaluate_SU_risk sme_profile risk_profile dscr' loan_amount loan_type =
          Except.ok d' →
        d.decision ≠ "FAIL" → d'.decision ≠ "FAIL") := by
  refine ⟨?_, ?_, ?_, ?_⟩ <;>
    (intro sme risk dscr dscr' amount lt d d' hle h1 h2 hne)
  · unfold EvaluationModule.evaluate_eb_risk at h1 h2
    split_ifs at h1 h2
    simp only [Except.ok.injEq] at h1 h2
    subst h1
    subst h2
    exact eb_body_noFail_mono risk dscr dscr' amount lt hne
  · unfold EvaluationModule.evaluate_esb_risk at h1 h2
    split_ifs at h1 h2
    simp only [Except.ok.injEq] at h1 h2
    subst h1
    subst h2
    exact esb_body_noFail_mono risk dscr dscr' amount lt hne
  · unfold EvaluationModule.evaluate_ntb_risk at h1 h2
    split_ifs at h1 h2
    simp only [Except.ok.injEq] at h1 h2
    subst h1
    subst h2
    exact ntb_body_noFail_mono risk dscr dscr' amount lt hne
  · unfold EvaluationModule.evaluate_SU_risk at h1 h2
    split_ifs at h1 h2
    simp only [Except.ok.injEq] at h1 h2
    subst h1
    subst h2
    exact su_body_noFail_mono risk dscr dscr' amount lt hle hne

/-- Witness for C8's amended claim at a concrete input: EB/T1/unsecured at
amount 50000 is PASS at dscr = 1.3; raising dscr to 1.4 yields another
non-FAIL decision. -/
theorem claim_C8_witness :
    (⟨"PASS", 0.85, "EB/T1 with DSCR just below 150% qualifies for an unsecured loan."⟩ :
      Decision).decision ≠ "FAIL" :=
  claim_C8_amended_noFail_dscr_monotone.1 "EB" "T1" 1.3 1.4 50000 "unsecured"
    ⟨"PASS", 0.78, "EB/T1 with DSCR between 125%-135% qualifies for an unsecured loan."⟩
    ⟨"PASS", 0.85, "EB/T1 with DSCR just below 150% qualifies for an unsecured loan."⟩
    (by norm_num)
    (by norm_num +decide [EvaluationModule.evaluate_eb_risk,
      EvaluationModule.evaluate_eb_risk_body, pyLower])
    (by norm_num +decide [EvaluationModule.evaluate_eb_risk,
      EvaluationModule.evaluate_eb_risk_body, pyLower])
    (by decide)
